import Mathlib

/-!
Verification development for the `iam` identity-provider server.

This file shallowly embeds the credential-ceremony orchestration and
session-lifecycle engine of the server (`src/server/src/api/v1/auth.rs`,
`src/server/src/api/v1/extractors.rs`, the data model under
`src/server/src/models/`, and the store under `src/server/src/db/`) and
proves or refutes the specification claims about it.

Modelling conventions:
- UUIDs, tokens, blake3 hashes, and the ceremony library's continuation
  blobs are modelled as natural numbers; timestamps are integers counted
  in seconds (5 minutes = 300, 24 hours = 86400).
- The WebAuthn ceremony library is an external collaborator; its calls
  are fields of a `WebauthnImpl` record passed to the handlers, exactly
  as `state.webauthn` is in the source.
- The database is an external collaborator behind the `DatabaseClient`
  trait (`src/server/src/db/interface.rs`); handlers take a `DbOps`
  record of store operations, and `refOps` is the reference store
  implementing the interface contract over in-memory lists.
- Each store call threads the database value; the blake3 hash function
  and the 256-bit random token are explicit parameters, following the
  spec's advice to inject them as capabilities.
- Handlers additionally record a trace of store *write* invocations
  (`StoreEvent`), used to state ordering and absence-of-write facts.
-/

deriving instance DecidableEq for Except

namespace Iam

/-- UUIDs are modelled as naturals. -/
abbrev Uuid := Nat

/-- A blake3 hash value (the session `id_hash`). -/
abbrev HashVal := Nat

/-- Timestamps in seconds. -/
abbrev Timestamp := Int

/-- A WebAuthn credential id (`cred_id`), treated as an atom. -/
abbrev CredId := Nat

/-- A WebAuthn challenge, treated as an atom. -/
abbrev Challenge := Nat

/-- A client's `RegisterPublicKeyCredential`, treated as an atom. -/
abbrev RegCredential := Nat

/-- A client's `PublicKeyCredential`, treated as an atom. -/
abbrev ClientResponse := Nat

/-- The ceremony library's `PasskeyRegistration` continuation blob. -/
abbrev ContinuationReg := Nat

/-- The ceremony library's `PasskeyAuthentication` continuation blob. -/
abbrev ContinuationAuth := Nat

/-- The ceremony library's `DiscoverableAuthentication` continuation blob. -/
abbrev ContinuationDisco := Nat

/-- The ceremony library's `Passkey` blob (`models/passkey.rs` stores it
via `ViaJson<Passkey>`). The orchestration layer treats it as an atom,
except that the library can extract the credential id from it, so the
model exposes that one component. -/
structure PasskeyData where
  cred_id : CredId
  material : Nat
deriving DecidableEq, Repr

/-- Session state (`models/session.rs`). -/
inductive SessionState where
  | Active
  | Revoked
  | LoggedOut
  | Superseded
deriving DecidableEq, Repr

/-- Login session (`models/session.rs`). `id_hash` is the blake3 hash of
the session id, the only form the server stores. -/
structure Session where
  id_hash : HashVal
  user_id : Uuid
  state : SessionState
  created_at : Timestamp
  expires_at : Timestamp
  is_admin : Bool
  parent_id_hash : Option HashVal
deriving DecidableEq, Repr

/-- Data used to update a session (`models/session.rs`). -/
structure SessionUpdate where
  state : Option SessionState
  expires_at : Option Timestamp
deriving DecidableEq, Repr

/-- Mirrors `SessionUpdate::new()`. -/
def SessionUpdate.new : SessionUpdate := ⟨none, none⟩

/-- Mirrors `SessionUpdate::with_state`. -/
def SessionUpdate.with_state (u : SessionUpdate) (s : SessionState) : SessionUpdate :=
  { u with state := some s }

/-- Mirrors `SessionUpdate::is_empty`. -/
def SessionUpdate.is_empty (u : SessionUpdate) : Bool :=
  u.state.isNone && u.expires_at.isNone

/-- User record (`models/user.rs`). -/
structure User where
  id : Uuid
  email : String
  display_name : String
  created_at : Timestamp
  updated_at : Timestamp
deriving DecidableEq, Repr

/-- Data used to create a user (`UserCreate` in `models/user.rs`). -/
structure UserCreate where
  email : String
  display_name : String
deriving DecidableEq, Repr

/-- Tag record (`models/tag.rs`); only the name is consumed by the
session manager (the `iam::admin` capability check). -/
structure Tag where
  id : Uuid
  name : String
deriving DecidableEq, Repr

/-- Passkey credential row (`models/passkey.rs`). -/
structure PasskeyCredential where
  id : Uuid
  user_id : Uuid
  display_name : Option String
  passkey : PasskeyData
  created_at : Timestamp
  last_used_at : Option Timestamp
deriving DecidableEq, Repr

/-- Data used to update a passkey credential (`models/passkey.rs`). -/
structure PasskeyCredentialUpdate where
  display_name : Option (Option String)
  passkey : Option PasskeyData
deriving DecidableEq, Repr

/-- Mirrors `PasskeyCredentialUpdate::new()`. -/
def PasskeyCredentialUpdate.new : PasskeyCredentialUpdate := ⟨none, none⟩

/-- Mirrors `PasskeyCredentialUpdate::with_passkey`. -/
def PasskeyCredentialUpdate.with_passkey (u : PasskeyCredentialUpdate) (p : PasskeyData) :
    PasskeyCredentialUpdate :=
  { u with passkey := some p }

/-- Mirrors `PasskeyCredentialUpdate::with_display_name`. -/
def PasskeyCredentialUpdate.with_display_name (u : PasskeyCredentialUpdate)
    (d : Option String) : PasskeyCredentialUpdate :=
  { u with display_name := some d }

/-- Mirrors `PasskeyCredentialUpdate::is_empty`. -/
def PasskeyCredentialUpdate.is_empty (u : PasskeyCredentialUpdate) : Bool :=
  u.display_name.isNone && u.passkey.isNone

/-- Data used to create a passkey credential (`NewPasskeyCredential`). -/
structure NewPasskeyCredential where
  display_name : Option String
  passkey : PasskeyData
deriving DecidableEq, Repr

/-- Server-side state of an in-progress registration ceremony
(`PasskeyRegistrationState` in `models/passkey.rs`). -/
structure PasskeyRegistrationState where
  id : Uuid
  user_id : Uuid
  email : String
  registration : ContinuationReg
  created_at : Timestamp
deriving DecidableEq, Repr

/-- Tagged continuation value of an authentication ceremony
(`PasskeyAuthenticationStateType` in `models/passkey.rs`). -/
inductive PasskeyAuthenticationStateType where
  | Discoverable (c : ContinuationDisco)
  | Regular (c : ContinuationAuth)
deriving DecidableEq, Repr

/-- Server-side state of an in-progress authentication ceremony
(`PasskeyAuthenticationState` in `models/passkey.rs`). -/
structure PasskeyAuthenticationState where
  id : Uuid
  email : Option String
  state : PasskeyAuthenticationStateType
  created_at : Timestamp
deriving DecidableEq, Repr

/-- Database error taxonomy (`db/interface.rs`). Payloads carried by
`UniquenessViolation` and `Other` are dropped in the model. -/
inductive DatabaseError where
  | NotFound
  | UniquenessViolation
  | EmptyUpdate
  | Other
  | UserNotFound
deriving DecidableEq, Repr

/-- WebAuthn library error, treated as an atom except for the
`InvalidUserUniqueId` variant that the orchestration constructs itself. -/
inductive WebauthnErr where
  | invalidUserUniqueId
  | other (code : Nat)
deriving DecidableEq, Repr

/-- Error type of the v1 API (`ApiV1Error` in `api/v1/mod.rs`). -/
inductive ApiV1Error where
  | notFound
  | webAuthn (e : WebauthnErr)
  | internalServerError
  | invalidRegistrationId
  | sessionExpired
  | invalidAuthenticationId
  | userNotFound
  | invalidSessionId
  | notLoggedIn
  | notAdmin
  | authFailed (e : WebauthnErr)
  | downgradeImpossible
deriving DecidableEq, Repr

/-- Mirrors `impl From<DatabaseError> for ApiV1Error`: `NotFound` maps to
the generic 404 error, everything else to an internal server error. -/
def dbToApi (e : DatabaseError) : ApiV1Error :=
  match e with
  | .NotFound => .notFound
  | _ => .internalServerError

/-- The in-memory database contents behind the store interface. -/
structure Db where
  users : List User
  user_tags : List (Uuid × Tag)
  passkeys : List PasskeyCredential
  registrations : List PasskeyRegistrationState
  authentications : List PasskeyAuthenticationState
  sessions : List Session
deriving DecidableEq, Repr

namespace Ref

/-- Reference store: `create_user` (sqlite `mod.rs`): INSERT fails on a
uniqueness violation of the id (primary key) or email (unique column). -/
def create_user (db : Db) (id : Uuid) (user : UserCreate) (now : Timestamp) :
    Db × Except DatabaseError User :=
  if db.users.any (fun u => u.id == id || u.email == user.email) then
    (db, .error .UniquenessViolation)
  else
    let u : User := ⟨id, user.email, user.display_name, now, now⟩
    ({ db with users := db.users ++ [u] }, .ok u)

/-- Reference store: `get_user_by_id`. -/
def get_user_by_id (db : Db) (id : Uuid) : Db × Except DatabaseError User :=
  (db, match db.users.find? (fun u => u.id == id) with
       | some u => .ok u
       | none => .error .NotFound)

/-- Reference store: `get_user_by_email`. -/
def get_user_by_email (db : Db) (email : String) : Db × Except DatabaseError User :=
  (db, match db.users.find? (fun u => u.email == email) with
       | some u => .ok u
       | none => .error .NotFound)

/-- Reference store: `delete_user_by_id` (sqlite DELETE succeeds even
when no row matches). -/
def delete_user_by_id (db : Db) (id : Uuid) : Db × Except DatabaseError Unit :=
  ({ db with users := db.users.filter (fun u => u.id != id) }, .ok ())

/-- Reference store: `get_tags_by_user_id` (join over `users_tags`). -/
def get_tags_by_user_id (db : Db) (user_id : Uuid) : Db × Except DatabaseError (List Tag) :=
  (db, .ok (((db.user_tags.filter (fun p => p.1 == user_id)).map Prod.snd)))

/-- Reference store: `create_passkey`: uniqueness of the id; a missing
owning user is a foreign-key violation, surfaced as `Other` by the
`From<sqlx::Error>` conversion. -/
def create_passkey (db : Db) (id : Uuid) (user_id : Uuid) (pk : NewPasskeyCredential)
    (now : Timestamp) : Db × Except DatabaseError PasskeyCredential :=
  if db.passkeys.any (fun p => p.id == id) then
    (db, .error .UniquenessViolation)
  else if db.users.any (fun u => u.id == user_id) then
    let p : PasskeyCredential := ⟨id, user_id, pk.display_name, pk.passkey, now, some now⟩
    ({ db with passkeys := db.passkeys ++ [p] }, .ok p)
  else
    (db, .error .Other)

/-- Modelled from the spec: the sqlite implementation of
`get_passkey_by_credential_id` is not under `src/`; per the interface
(`db/interface.rs`) it fetches the credential whose library credential
id matches. -/
def get_passkey_by_credential_id (db : Db) (cred_id : CredId) :
    Db × Except DatabaseError PasskeyCredential :=
  (db, match db.passkeys.find? (fun p => p.passkey.cred_id == cred_id) with
       | some p => .ok p
       | none => .error .NotFound)

/-- Modelled from the spec: interface-contract `update_passkey` — fields
with a value replace the corresponding field (doc of
`PasskeyCredentialUpdate` in `models/passkey.rs`). The repository's own
sqlite implementation deviates from this contract; it is modelled
separately below as `Sqlite.update_passkey`. -/
def update_passkey (db : Db) (id : Uuid) (u : PasskeyCredentialUpdate) :
    Db × Except DatabaseError PasskeyCredential :=
  if u.is_empty then (db, .error .EmptyUpdate)
  else
    match db.passkeys.find? (fun p => p.id == id) with
    | none => (db, .error .NotFound)
    | some p =>
      ({ db with passkeys := db.passkeys.map (fun q =>
          if q.id == id then
            { p with display_name := u.display_name.getD p.display_name,
                     passkey := u.passkey.getD p.passkey }
          else q) },
       .ok { p with display_name := u.display_name.getD p.display_name,
                    passkey := u.passkey.getD p.passkey })

/-- Reference store: `create_passkey_registration` (INSERT, unique id). -/
def create_passkey_registration (db : Db) (st : PasskeyRegistrationState) :
    Db × Except DatabaseError Unit :=
  if db.registrations.any (fun r => r.id == st.id) then
    (db, .error .UniquenessViolation)
  else
    ({ db with registrations := db.registrations ++ [st] }, .ok ())

/-- Reference store: `get_passkey_registration_by_id`. -/
def get_passkey_registration_by_id (db : Db) (id : Uuid) :
    Db × Except DatabaseError PasskeyRegistrationState :=
  (db, match db.registrations.find? (fun r => r.id == id) with
       | some r => .ok r
       | none => .error .NotFound)

/-- Reference store: `create_passkey_authentication`; a foreign-key
violation on the target email is mapped to `UserNotFound` by the sqlite
client. -/
def create_passkey_authentication (db : Db) (st : PasskeyAuthenticationState) :
    Db × Except DatabaseError Unit :=
  if db.authentications.any (fun a => a.id == st.id) then
    (db, .error .UniquenessViolation)
  else
    match st.email with
    | some e =>
      if db.users.any (fun u => u.email == e) then
        ({ db with authentications := db.authentications ++ [st] }, .ok ())
      else
        (db, .error .UserNotFound)
    | none =>
      ({ db with authentications := db.authentications ++ [st] }, .ok ())

/-- Reference store: `get_passkey_authentication_by_id`. -/
def get_passkey_authentication_by_id (db : Db) (id : Uuid) :
    Db × Except DatabaseError PasskeyAuthenticationState :=
  (db, match db.authentications.find? (fun a => a.id == id) with
       | some a => .ok a
       | none => .error .NotFound)

/-- Reference store: `get_passkeys_by_user_email` (join; an unknown
email yields an empty list, not an error). -/
def get_passkeys_by_user_email (db : Db) (email : String) :
    Db × Except DatabaseError (List PasskeyCredential) :=
  (db, .ok (db.passkeys.filter (fun p =>
    match db.users.find? (fun u => u.id == p.user_id) with
    | some u => u.email == email
    | none => false)))

/-- Reference store: `create_session` (INSERT keyed by `id_hash`). -/
def create_session (db : Db) (s : Session) : Db × Except DatabaseError Unit :=
  if db.sessions.any (fun t => t.id_hash == s.id_hash) then
    (db, .error .UniquenessViolation)
  else
    ({ db with sessions := db.sessions ++ [s] }, .ok ())

/-- Reference store: `get_session_by_id_hash`. -/
def get_session_by_id_hash (db : Db) (h : HashVal) : Db × Except DatabaseError Session :=
  (db, match db.sessions.find? (fun s => s.id_hash == h) with
       | some s => .ok s
       | none => .error .NotFound)

/-- Modelled from the spec: the sqlite implementation of
`update_session` is not under `src/`; per the interface contract
(`db/interface.rs` and the doc of `SessionUpdate` in
`models/session.rs`) fields with a value replace the corresponding
field of the stored session. -/
def update_session (db : Db) (h : HashVal) (u : SessionUpdate) :
    Db × Except DatabaseError Session :=
  if u.is_empty then (db, .error .EmptyUpdate)
  else
    match db.sessions.find? (fun s => s.id_hash == h) with
    | none => (db, .error .NotFound)
    | some s =>
      ({ db with sessions := db.sessions.map (fun t =>
          if t.id_hash == h then
            { s with state := u.state.getD s.state,
                     expires_at := u.expires_at.getD s.expires_at }
          else t) },
       .ok { s with state := u.state.getD s.state,
                    expires_at := u.expires_at.getD s.expires_at })

end Ref

/-- The store operations consumed by the handlers, mirroring the
`dyn DatabaseClient` parameter of the source. -/
structure DbOps where
  create_user : Db → Uuid → UserCreate → Timestamp → Db × Except DatabaseError User
  get_user_by_id : Db → Uuid → Db × Except DatabaseError User
  get_user_by_email : Db → String → Db × Except DatabaseError User
  delete_user_by_id : Db → Uuid → Db × Except DatabaseError Unit
  get_tags_by_user_id : Db → Uuid → Db × Except DatabaseError (List Tag)
  create_passkey : Db → Uuid → Uuid → NewPasskeyCredential → Timestamp →
    Db × Except DatabaseError PasskeyCredential
  get_passkey_by_credential_id : Db → CredId → Db × Except DatabaseError PasskeyCredential
  update_passkey : Db → Uuid → PasskeyCredentialUpdate → Db × Except DatabaseError PasskeyCredential
  create_passkey_registration : Db → PasskeyRegistrationState → Db × Except DatabaseError Unit
  get_passkey_registration_by_id : Db → Uuid → Db × Except DatabaseError PasskeyRegistrationState
  create_passkey_authentication : Db → PasskeyAuthenticationState → Db × Except DatabaseError Unit
  get_passkey_authentication_by_id : Db → Uuid →
    Db × Except DatabaseError PasskeyAuthenticationState
  get_passkeys_by_user_email : Db → String → Db × Except DatabaseError (List PasskeyCredential)
  create_session : Db → Session → Db × Except DatabaseError Unit
  get_session_by_id_hash : Db → HashVal → Db × Except DatabaseError Session
  update_session : Db → HashVal → SessionUpdate → Db × Except DatabaseError Session

/-- The reference store instance. -/
def refOps : DbOps where
  create_user := Ref.create_user
  get_user_by_id := Ref.get_user_by_id
  get_user_by_email := Ref.get_user_by_email
  delete_user_by_id := Ref.delete_user_by_id
  get_tags_by_user_id := Ref.get_tags_by_user_id
  create_passkey := Ref.create_passkey
  get_passkey_by_credential_id := Ref.get_passkey_by_credential_id
  update_passkey := Ref.update_passkey
  create_passkey_registration := Ref.create_passkey_registration
  get_passkey_registration_by_id := Ref.get_passkey_registration_by_id
  create_passkey_authentication := Ref.create_passkey_authentication
  get_passkey_authentication_by_id := Ref.get_passkey_authentication_by_id
  get_passkeys_by_user_email := Ref.get_passkeys_by_user_email
  create_session := Ref.create_session
  get_session_by_id_hash := Ref.get_session_by_id_hash
  update_session := Ref.update_session

/-- Result of a successful targeted or discoverable verification by the
ceremony library (`AuthenticationResult`): the credential id it reports
and whether the stored credential needs an update. -/
structure AuthResult where
  cred_id : CredId
  needs_update : Bool
deriving DecidableEq, Repr

/-- The WebAuthn ceremony library collaborator (`state.webauthn`). -/
structure WebauthnImpl where
  start_passkey_registration :
    Uuid → String → String → Except WebauthnErr (Challenge × ContinuationReg)
  finish_passkey_registration :
    RegCredential → ContinuationReg → Except WebauthnErr PasskeyData
  start_passkey_authentication :
    List PasskeyData → Except WebauthnErr (Challenge × ContinuationAuth)
  finish_passkey_authentication :
    ClientResponse → ContinuationAuth → Except WebauthnErr AuthResult
  start_discoverable_authentication :
    Except WebauthnErr (Challenge × ContinuationDisco)
  identify_discoverable_authentication :
    ClientResponse → Except WebauthnErr (Uuid × CredId)
  finish_discoverable_authentication :
    ClientResponse → ContinuationDisco → PasskeyData → Except WebauthnErr AuthResult
  update_credential : PasskeyData → AuthResult → Option Bool × PasskeyData

/-- A store write invocation performed by a handler, in order. -/
inductive StoreEvent where
  | createUser (id : Uuid)
  | deleteUser (id : Uuid)
  | createPasskey (id : Uuid)
  | updatePasskey (id : Uuid) (u : PasskeyCredentialUpdate)
  | createRegState (id : Uuid)
  | createAuthState (id : Uuid)
  | createSession (s : Session)
  | updateSession (h : HashVal) (u : SessionUpdate)
deriving DecidableEq, Repr

/-- Result of a handler: the final database, the trace of store write
invocations, and the outcome handed to the transport layer. -/
structure HRes (α : Type) where
  db : Db
  tr : List StoreEvent
  out : Except ApiV1Error α
deriving DecidableEq, Repr

/-- `SESSION_DURATION` (`auth.rs`): one day, in seconds. -/
def SESSION_DURATION : Int := 86400

/-- Mirrors `new_session` in `auth.rs`: generate a 256-bit random raw id
(`raw_id`, injected), hash it with blake3 (`hash`, injected), persist a
fresh `Active` session, and set the `session_id` cookie. The returned
`HashVal` is the cookie value the client receives; the source sets it to
`id_hash.to_string()`. -/
def new_session (ops : DbOps) (db : Db) (hash : Nat → HashVal) (raw_id : Nat)
    (now : Timestamp) (user_id : Uuid) (is_admin : Bool) (parent : Option Session) :
    Db × List StoreEvent × Except DatabaseError (Session × HashVal) :=
  let id_hash := hash raw_id
  let session : Session :=
    ⟨id_hash, user_id, .Active, now, now + SESSION_DURATION, is_admin,
     parent.map (fun p => p.id_hash)⟩
  match ops.create_session db session with
  | (db, .error e) => (db, [.createSession session], .error e)
  | (db, .ok _) => (db, [.createSession session], .ok (session, id_hash))

/-- Mirrors the `AuthenticatedSession` extractor (`extractors.rs`): read
the `session_id` cookie (`none` = absent, `some none` = not valid hex),
look the presented value up by `id_hash` — without hashing it — and
check that the session is `Active` and unexpired. -/
def authenticated_session (ops : DbOps) (db : Db) (now : Timestamp)
    (cookie : Option (Option HashVal)) : Db × Except ApiV1Error Session :=
  match cookie with
  | none => (db, .error .notLoggedIn)
  | some none => (db, .error .invalidSessionId)
  | some (some session_id_hash) =>
    match ops.get_session_by_id_hash db session_id_hash with
    | (db, .ok session) =>
      if session.state != .Active || decide (session.expires_at < now) then
        (db, .error .sessionExpired)
      else
        (db, .ok session)
    | (db, .error .NotFound) => (db, .error .notLoggedIn)
    | (db, .error e) => (db, .error (dbToApi e))

/-- Mirrors `start_registration` (`auth.rs`): allocate a candidate user
id, begin the library ceremony, persist the registration state. -/
def start_registration (ops : DbOps) (w : WebauthnImpl) (db : Db) (now : Timestamp)
    (request : UserCreate) (user_id : Uuid) (reg_id : Uuid) : HRes Challenge :=
  match w.start_passkey_registration user_id request.email request.display_name with
  | .error e => ⟨db, [], .error (.webAuthn e)⟩
  | .ok (challenge, reg) =>
    let reg_state : PasskeyRegistrationState := ⟨reg_id, user_id, request.email, reg, now⟩
    match ops.create_passkey_registration db reg_state with
    | (db, .error e) => ⟨db, [.createRegState reg_id], .error (dbToApi e)⟩
    | (db, .ok _) => ⟨db, [.createRegState reg_id], .ok challenge⟩

/-- Request body of `finish_registration`. -/
structure FinishRegistrationRequest where
  user : UserCreate
  passkey : RegCredential
deriving DecidableEq, Repr

/-- The part of `finish_registration` from library verification onward:
verify, create the user with the candidate id captured at start, create
the passkey (with the compensating user delete on failure — the delete's
own failure is only logged and its result discarded), then mint a
session. -/
def finish_registration_rest (ops : DbOps) (w : WebauthnImpl) (db : Db) (now : Timestamp)
    (reg_state : PasskeyRegistrationState) (request : FinishRegistrationRequest)
    (pk_id : Uuid) (raw_id : Nat) (hash : Nat → HashVal) : HRes User :=
  match w.finish_passkey_registration request.passkey reg_state.registration with
  | .error e => ⟨db, [], .error (.webAuthn e)⟩
  | .ok passkey =>
    let new_passkey : NewPasskeyCredential := ⟨none, passkey⟩
    match ops.create_user db reg_state.user_id request.user now with
    | (db, .error e) => ⟨db, [.createUser reg_state.user_id], .error (dbToApi e)⟩
    | (db, .ok user) =>
      match ops.create_passkey db pk_id user.id new_passkey now with
      | (db, .error err) =>
        match ops.delete_user_by_id db user.id with
        | (db, _) =>
          ⟨db, [.createUser reg_state.user_id, .createPasskey pk_id, .deleteUser user.id],
           .error (dbToApi err)⟩
      | (db, .ok _) =>
        match new_session ops db hash raw_id now user.id false none with
        | (db, tr, .error e) =>
          ⟨db, [.createUser reg_state.user_id, .createPasskey pk_id] ++ tr,
           .error (dbToApi e)⟩
        | (db, tr, .ok _) =>
          ⟨db, [.createUser reg_state.user_id, .createPasskey pk_id] ++ tr, .ok user⟩

/-- Mirrors `finish_registration` (`auth.rs`): read the
`registration_id` cookie, look the ceremony state up, check the
5-minute expiry (`created_at < now - 5min` fails with the
`SessionExpired` error, which the code reuses for ceremony expiry), then
continue with `finish_registration_rest`. -/
def finish_registration (ops : DbOps) (w : WebauthnImpl) (db : Db) (now : Timestamp)
    (cookie : Option (Option Uuid)) (request : FinishRegistrationRequest)
    (pk_id : Uuid) (raw_id : Nat) (hash : Nat → HashVal) : HRes User :=
  match cookie with
  | none => ⟨db, [], .error .invalidRegistrationId⟩
  | some none => ⟨db, [], .error .invalidRegistrationId⟩
  | some (some registration_id) =>
    match ops.get_passkey_registration_by_id db registration_id with
    | (db, .error e) => ⟨db, [], .error (dbToApi e)⟩
    | (db, .ok reg_state) =>
      if decide (reg_state.created_at < now - 300) then
        ⟨db, [], .error .sessionExpired⟩
      else
        finish_registration_rest ops w db now reg_state request pk_id raw_id hash

/-- Mirrors `start_authentication` (`auth.rs`): load the candidate
credentials for the email, begin the library ceremony, persist the
state tagged `Regular`; a `UserNotFound` store error is surfaced as the
`UserNotFound` API error. -/
def start_authentication (ops : DbOps) (w : WebauthnImpl) (db : Db) (now : Timestamp)
    (email : String) (auth_id : Uuid) : HRes Challenge :=
  match ops.get_passkeys_by_user_email db email with
  | (db, .error e) => ⟨db, [], .error (dbToApi e)⟩
  | (db, .ok passkeys) =>
    match w.start_passkey_authentication (passkeys.map (fun p => p.passkey)) with
    | .error e => ⟨db, [], .error (.webAuthn e)⟩
    | .ok (challenge, auth_cont) =>
      let auth_state : PasskeyAuthenticationState :=
        ⟨auth_id, some email, .Regular auth_cont, now⟩
      match ops.create_passkey_authentication db auth_state with
      | (db, .error .UserNotFound) => ⟨db, [.createAuthState auth_id], .error .userNotFound⟩
      | (db, .error e) => ⟨db, [.createAuthState auth_id], .error (dbToApi e)⟩
      | (db, .ok _) => ⟨db, [.createAuthState auth_id], .ok challenge⟩

/-- Mirrors `do_passkey_update` (`auth.rs`): fetch the credential by the
library-reported credential id, let the library update its state, and if
it reports a change persist the updated blob via `update_passkey`. -/
def do_passkey_update (ops : DbOps) (w : WebauthnImpl) (db : Db) (result : AuthResult) :
    Db × List StoreEvent × Except DatabaseError Unit :=
  match ops.get_passkey_by_credential_id db result.cred_id with
  | (db, .error e) => (db, [], .error e)
  | (db, .ok passkey) =>
    match w.update_credential passkey.passkey result with
    | (some true, pk1) =>
      let u := PasskeyCredentialUpdate.with_passkey PasskeyCredentialUpdate.new pk1
      match ops.update_passkey db passkey.id u with
      | (db, .error e) => (db, [.updatePasskey passkey.id u], .error e)
      | (db, .ok _) => (db, [.updatePasskey passkey.id u], .ok ())
    | (_, _) => (db, [], .ok ())

/-- The part of targeted `finish_authentication` after the expiry check:
require a `Regular` state, verify with the library, apply the credential
update when flagged, resolve the user by the stored email, and mint a
session. -/
def finish_authentication_rest (ops : DbOps) (w : WebauthnImpl) (db : Db) (now : Timestamp)
    (auth_state : PasskeyAuthenticationState) (request : ClientResponse)
    (raw_id : Nat) (hash : Nat → HashVal) : HRes User :=
  match auth_state.state with
  | .Discoverable _ => ⟨db, [], .error .invalidAuthenticationId⟩
  | .Regular passkey_state =>
    match w.finish_passkey_authentication request passkey_state with
    | .error e => ⟨db, [], .error (.webAuthn e)⟩
    | .ok result =>
      match (if result.needs_update then do_passkey_update ops w db result
             else (db, [], .ok ())) with
      | (db, tr0, .error e) => ⟨db, tr0, .error (dbToApi e)⟩
      | (db, tr0, .ok _) =>
        match auth_state.email with
        | none => ⟨db, tr0, .error .invalidAuthenticationId⟩
        | some email =>
          match ops.get_user_by_email db email with
          | (db, .error e) => ⟨db, tr0, .error (dbToApi e)⟩
          | (db, .ok user) =>
            match new_session ops db hash raw_id now user.id false none with
            | (db, tr, .error e) => ⟨db, tr0 ++ tr, .error (dbToApi e)⟩
            | (db, tr, .ok _) => ⟨db, tr0 ++ tr, .ok user⟩

/-- Mirrors targeted `finish_authentication` (`auth.rs`): read the
`authentication_id` cookie, look the ceremony state up (a store error,
including `NotFound`, propagates through the `From<DatabaseError>`
conversion), check the 5-minute expiry, then continue with
`finish_authentication_rest`. -/
def finish_authentication (ops : DbOps) (w : WebauthnImpl) (db : Db) (now : Timestamp)
    (cookie : Option (Option Uuid)) (request : ClientResponse)
    (raw_id : Nat) (hash : Nat → HashVal) : HRes User :=
  match cookie with
  | none => ⟨db, [], .error .invalidAuthenticationId⟩
  | some none => ⟨db, [], .error .invalidAuthenticationId⟩
  | some (some authentication_id) =>
    match ops.get_passkey_authentication_by_id db authentication_id with
    | (db, .error e) => ⟨db, [], .error (dbToApi e)⟩
    | (db, .ok auth_state) =>
      if decide (auth_state.created_at < now - 300) then
        ⟨db, [], .error .sessionExpired⟩
      else
        finish_authentication_rest ops w db now auth_state request raw_id hash

/-- Mirrors `start_conditional_ui_authentication` (`auth.rs`). -/
def start_conditional_ui_authentication (ops : DbOps) (w : WebauthnImpl) (db : Db)
    (now : Timestamp) (auth_id : Uuid) : HRes Challenge :=
  match w.start_discoverable_authentication with
  | .error e => ⟨db, [], .error (.webAuthn e)⟩
  | .ok (challenge, disco) =>
    let auth_state : PasskeyAuthenticationState :=
      ⟨auth_id, none, .Discoverable disco, now⟩
    match ops.create_passkey_authentication db auth_state with
    | (db, .error e) => ⟨db, [.createAuthState auth_id], .error (dbToApi e)⟩
    | (db, .ok _) => ⟨db, [.createAuthState auth_id], .ok challenge⟩

/-- Mirrors `finish_conditional_ui_authentication` (`auth.rs`):
identify the claimed user id and credential id from the client response,
fetch the ceremony state and the claimed credential (both `NotFound`
cases map to `InvalidAuthenticationId`), require a `Discoverable` state,
verify (failure maps to `AuthFailed`), cross-check that the credential's
owning user equals the claimed user id, apply the credential update when
flagged, and mint a session. Note that there is no ceremony-expiry check
on this path. -/
def finish_conditional_ui_authentication (ops : DbOps) (w : WebauthnImpl) (db : Db)
    (now : Timestamp) (cookie : Option (Option Uuid)) (request : ClientResponse)
    (raw_id : Nat) (hash : Nat → HashVal) : HRes User :=
  match cookie with
  | none => ⟨db, [], .error .invalidAuthenticationId⟩
  | some none => ⟨db, [], .error .invalidAuthenticationId⟩
  | some (some auth_id) =>
    match w.identify_discoverable_authentication request with
    | .error e => ⟨db, [], .error (.webAuthn e)⟩
    | .ok (user_id, cred_id) =>
      match ops.get_passkey_authentication_by_id db auth_id with
      | (db, .error .NotFound) => ⟨db, [], .error .invalidAuthenticationId⟩
      | (db, .error e) => ⟨db, [], .error (dbToApi e)⟩
      | (db, .ok auth_state) =>
        match ops.get_passkey_by_credential_id db cred_id with
        | (db, .error .NotFound) => ⟨db, [], .error .invalidAuthenticationId⟩
        | (db, .error e) => ⟨db, [], .error (dbToApi e)⟩
        | (db, .ok passkey) =>
          match auth_state.state with
          | .Regular _ => ⟨db, [], .error .invalidAuthenticationId⟩
          | .Discoverable disco_state =>
            match w.finish_discoverable_authentication request disco_state passkey.passkey with
            | .error e => ⟨db, [], .error (.authFailed e)⟩
            | .ok result =>
              if passkey.user_id != user_id then
                ⟨db, [], .error (.authFailed .invalidUserUniqueId)⟩
              else
                match (if result.needs_update then do_passkey_update ops w db result
                       else (db, [], .ok ())) with
                | (db, tr0, .error e) => ⟨db, tr0, .error (dbToApi e)⟩
                | (db, tr0, .ok _) =>
                  match ops.get_user_by_id db user_id with
                  | (db, .error e) => ⟨db, tr0, .error (dbToApi e)⟩
                  | (db, .ok user) =>
                    match new_session ops db hash raw_id now user.id false none with
                    | (db, tr, .error e) => ⟨db, tr0 ++ tr, .error (dbToApi e)⟩
                    | (db, tr, .ok _) => ⟨db, tr0 ++ tr, .ok user⟩

/-- Mirrors `logout` (`auth.rs`): re-fetch the session; if it is still
`Active`, transition it to `LoggedOut`; idempotent otherwise. -/
def logout (ops : DbOps) (db : Db) (session : Session) : HRes Unit :=
  match ops.get_session_by_id_hash db session.id_hash with
  | (db, .error e) => ⟨db, [], .error (dbToApi e)⟩
  | (db, .ok s) =>
    if s.state == .Active then
      let u := SessionUpdate.with_state SessionUpdate.new .LoggedOut
      match ops.update_session db s.id_hash u with
      | (db, .error e) => ⟨db, [.updateSession s.id_hash u], .error (dbToApi e)⟩
      | (db, .ok _) => ⟨db, [.updateSession s.id_hash u], .ok ()⟩
    else
      ⟨db, [], .ok ()⟩

/-- Mirrors `supersede_session` (`auth.rs`): mark the session
`Superseded`. -/
def supersede_session (ops : DbOps) (db : Db) (session : Session) :
    Db × List StoreEvent × Except DatabaseError Unit :=
  let u : SessionUpdate := ⟨some .Superseded, none⟩
  match ops.update_session db session.id_hash u with
  | (db, .error e) => (db, [.updateSession session.id_hash u], .error e)
  | (db, .ok _) => (db, [.updateSession session.id_hash u], .ok ())

/-- The session-upgrade target (`UpgradeTarget` in `auth.rs`). -/
inductive UpgradeTarget where
  | Admin
deriving DecidableEq, Repr

/-- Mirrors `upgrade_session` (`auth.rs`): require the session's owning
user to hold the `iam::admin` tag (else `NotAdmin`), then mint a new
admin session with the current session as parent, and only then
supersede the current session. The returned value is the new session
cookie. -/
def upgrade_session (ops : DbOps) (db : Db) (session : Session) (target : UpgradeTarget)
    (raw_id : Nat) (hash : Nat → HashVal) (now : Timestamp) : HRes HashVal :=
  match ops.get_tags_by_user_id db session.user_id with
  | (db, .error e) => ⟨db, [], .error (dbToApi e)⟩
  | (db, .ok tags) =>
    if tags.any (fun t => t.name == ("iam::admin")) then
      match target with
      | .Admin =>
        match new_session ops db hash raw_id now session.user_id true (some session) with
        | (db, tr, .error e) => ⟨db, tr, .error (dbToApi e)⟩
        | (db, tr, .ok (_, cookie_val)) =>
          match supersede_session ops db session with
          | (db, tr2, .error e) => ⟨db, tr ++ tr2, .error (dbToApi e)⟩
          | (db, tr2, .ok _) => ⟨db, tr ++ tr2, .ok cookie_val⟩
    else
      ⟨db, [], .error .notAdmin⟩

/-- Mirrors `downgrade_session` (`auth.rs`): require a parent (else
`DowngradeImpossible`), fetch the parent session (it may be superseded —
that is expected), mint a new session with the parent's user and
privilege level and the current session as parent, then supersede the
current session. -/
def downgrade_session (ops : DbOps) (db : Db) (session : Session)
    (raw_id : Nat) (hash : Nat → HashVal) (now : Timestamp) : HRes HashVal :=
  match session.parent_id_hash with
  | some parent_id_hash =>
    match ops.get_session_by_id_hash db parent_id_hash with
    | (db, .error e) => ⟨db, [], .error (dbToApi e)⟩
    | (db, .ok parent_session) =>
      match new_session ops db hash raw_id now parent_session.user_id
          parent_session.is_admin (some session) with
      | (db, tr, .error e) => ⟨db, tr, .error (dbToApi e)⟩
      | (db, tr, .ok (_, cookie_val)) =>
        match supersede_session ops db session with
        | (db, tr2, .error e) => ⟨db, tr ++ tr2, .error (dbToApi e)⟩
        | (db, tr2, .ok _) => ⟨db, tr ++ tr2, .ok cookie_val⟩
  | none => ⟨db, [], .error .downgradeImpossible⟩

/-- Mirrors `get_session` (`auth.rs`): return the user and session; a
read-only endpoint. -/
def get_session (ops : DbOps) (db : Db) (session : Session) : HRes (User × Session) :=
  match ops.get_user_by_id db session.user_id with
  | (db, .error e) => ⟨db, [], .error (dbToApi e)⟩
  | (db, .ok user) => ⟨db, [], .ok (user, session)⟩

/-- Mirrors `post_user` (`user.rs`): plain user creation. -/
def post_user (ops : DbOps) (db : Db) (now : Timestamp) (id : Uuid) (user : UserCreate) :
    HRes User :=
  match ops.create_user db id user now with
  | (db, .error e) => ⟨db, [.createUser id], .error (dbToApi e)⟩
  | (db, .ok u) => ⟨db, [.createUser id], .ok u⟩

/-- One inbound request to the system: every state-touching route of the
v1 API, with the `AuthenticatedSession` extractor run first where the
source handler takes one. -/
inductive Op where
  | opStartRegistration (w : WebauthnImpl) (now : Timestamp) (request : UserCreate)
      (user_id reg_id : Uuid)
  | opFinishRegistration (w : WebauthnImpl) (now : Timestamp) (cookie : Option (Option Uuid))
      (request : FinishRegistrationRequest) (pk_id : Uuid) (raw_id : Nat)
      (hash : Nat → HashVal)
  | opStartAuthentication (w : WebauthnImpl) (now : Timestamp) (email : String)
      (auth_id : Uuid)
  | opFinishAuthentication (w : WebauthnImpl) (now : Timestamp)
      (cookie : Option (Option Uuid)) (request : ClientResponse) (raw_id : Nat)
      (hash : Nat → HashVal)
  | opStartCondUI (w : WebauthnImpl) (now : Timestamp) (auth_id : Uuid)
  | opFinishCondUI (w : WebauthnImpl) (now : Timestamp) (cookie : Option (Option Uuid))
      (request : ClientResponse) (raw_id : Nat) (hash : Nat → HashVal)
  | opLogout (now : Timestamp) (cookie : Option (Option HashVal))
  | opUpgrade (now : Timestamp) (cookie : Option (Option HashVal)) (target : UpgradeTarget)
      (raw_id : Nat) (hash : Nat → HashVal)
  | opDowngrade (now : Timestamp) (cookie : Option (Option HashVal)) (raw_id : Nat)
      (hash : Nat → HashVal)
  | opGetSession (now : Timestamp) (cookie : Option (Option HashVal))
  | opPostUser (now : Timestamp) (id : Uuid) (request : UserCreate)

/-- Run one request against the reference store, yielding the final
database and the trace of store writes. -/
def applyOp (op : Op) (db : Db) : Db × List StoreEvent :=
  match op with
  | .opStartRegistration w now request user_id reg_id =>
    let r := start_registration refOps w db now request user_id reg_id
    (r.db, r.tr)
  | .opFinishRegistration w now cookie request pk_id raw_id hash =>
    let r := finish_registration refOps w db now cookie request pk_id raw_id hash
    (r.db, r.tr)
  | .opStartAuthentication w now email auth_id =>
    let r := start_authentication refOps w db now email auth_id
    (r.db, r.tr)
  | .opFinishAuthentication w now cookie request raw_id hash =>
    let r := finish_authentication refOps w db now cookie request raw_id hash
    (r.db, r.tr)
  | .opStartCondUI w now auth_id =>
    let r := start_conditional_ui_authentication refOps w db now auth_id
    (r.db, r.tr)
  | .opFinishCondUI w now cookie request raw_id hash =>
    let r := finish_conditional_ui_authentication refOps w db now cookie request raw_id hash
    (r.db, r.tr)
  | .opLogout now cookie =>
    match authenticated_session refOps db now cookie with
    | (db, .error _) => (db, [])
    | (db, .ok session) =>
      let r := logout refOps db session
      (r.db, r.tr)
  | .opUpgrade now cookie target raw_id hash =>
    match authenticated_session refOps db now cookie with
    | (db, .error _) => (db, [])
    | (db, .ok session) =>
      let r := upgrade_session refOps db session target raw_id hash now
      (r.db, r.tr)
  | .opDowngrade now cookie raw_id hash =>
    match authenticated_session refOps db now cookie with
    | (db, .error _) => (db, [])
    | (db, .ok session) =>
      let r := downgrade_session refOps db session raw_id hash now
      (r.db, r.tr)
  | .opGetSession now cookie =>
    match authenticated_session refOps db now cookie with
    | (db, .error _) => (db, [])
    | (db, .ok session) =>
      let r := get_session refOps db session
      (r.db, r.tr)
  | .opPostUser now id request =>
    let r := post_user refOps db now id request
    (r.db, r.tr)

/-- Outcome of a sqlite store call; `panicked` models a Rust panic
(an `unwrap()` of `None`). -/
inductive SqliteOutcome (α : Type) where
  | ok (db : Db) (val : α)
  | err (e : DatabaseError)
  | panicked
deriving DecidableEq, Repr

/-- Mirrors the sqlite `update_passkey`
(`db/clients/sqlite/mod.rs`, lines 449-469): after the emptiness check
it unconditionally unwraps `display_name` — a panic when the update
carries only a passkey — and its UPDATE statement writes only the
`display_name` column, never the passkey blob. -/
def Sqlite.update_passkey (db : Db) (id : Uuid) (u : PasskeyCredentialUpdate) :
    SqliteOutcome PasskeyCredential :=
  if u.is_empty then .err .EmptyUpdate
  else
    match u.display_name with
    | none => .panicked
    | some d =>
      match db.passkeys.find? (fun p => p.id == id) with
      | none => .err .NotFound
      | some p =>
        let p1 : PasskeyCredential := { p with display_name := d }
        .ok { db with passkeys := db.passkeys.map (fun q => if q.id == id then p1 else q) } p1

/-- Look a session up by its id hash. -/
def lookupSession (db : Db) (h : HashVal) : Option Session :=
  db.sessions.find? (fun s => s.id_hash == h)

/-- Between two database states, every session that is in a terminal
(non-`Active`) state remains present and in a terminal state. -/
def TerminalsStay (db db1 : Db) : Prop :=
  ∀ h s, lookupSession db h = some s → s.state ≠ .Active →
    ∃ s1, lookupSession db1 h = some s1 ∧ s1.state ≠ .Active

/-- True exactly for the elevate (`upgrade_session`) and de-elevate
(`downgrade_session`) requests. -/
def isElevationChange (op : Op) : Bool :=
  match op with
  | .opUpgrade _ _ _ _ _ => true
  | .opDowngrade _ _ _ _ => true
  | _ => false

/-- A concrete ceremony-library instance used for witnesses: every
ceremony succeeds, reports credential id 3 and user id 7, and never
requests a credential update. -/
def wAtom : WebauthnImpl where
  start_passkey_registration := fun _ _ _ => .ok (1, 1)
  finish_passkey_registration := fun _ _ => .ok ⟨3, 0⟩
  start_passkey_authentication := fun _ => .ok (1, 1)
  finish_passkey_authentication := fun _ _ => .ok ⟨3, false⟩
  start_discoverable_authentication := .ok (1, 1)
  identify_discoverable_authentication := fun _ => .ok (7, 3)
  finish_discoverable_authentication := fun _ _ _ => .ok ⟨3, false⟩
  update_credential := fun p _ => (none, p)

/-- A store whose compensating user delete always fails, used to witness
that the original error is still the one reported. -/
def failDeleteOps : DbOps :=
  { refOps with delete_user_by_id := fun db _ => (db, .error .Other) }

/-- Witness fixture: the user every witness ceremony resolves to. -/
def user7 : User := ⟨7, "u7@example.com", "User Seven", 0, 0⟩

/-- Witness fixture: user 7's passkey with library credential id 3. -/
def passkey37 : PasskeyCredential := ⟨21, 7, none, ⟨3, 0⟩, 0, none⟩

/-- Witness fixture: a database holding user 7, their passkey, and a
discoverable authentication ceremony state created at time 0. -/
def dbDisco : Db :=
  ⟨[user7], [], [passkey37], [], [⟨5, none, .Discoverable 9, 0⟩], []⟩

/-- Witness fixture: a database whose only session is terminal. -/
def dbTerminal : Db :=
  ⟨[user7], [], [], [], [], [⟨5, 7, .Superseded, 0, 86400, false, none⟩]⟩

/-- Counterexample fixture: session 11 is an elevated (admin) session;
session 12 is an active non-admin session whose parent is session 11,
as produced by a previous de-elevation. -/
def dbReDowngrade : Db :=
  ⟨[user7], [], [], [], [],
   [⟨11, 7, .Superseded, 0, 86400, true, some 10⟩,
    ⟨12, 7, .Active, 0, 86400, false, some 11⟩]⟩

/-- Witness fixture: a database for the elevate/de-elevate round trip —
user 7 holds the `iam::admin` tag and owns the active non-admin
session 40. -/
def dbRoundTrip : Db :=
  ⟨[user7], [(7, ⟨2, "iam::admin"⟩)], [], [], [],
   [⟨40, 7, .Active, 0, 86400, false, none⟩]⟩

/-- Witness fixture: user 8, owner of the pre-existing passkey that
makes the witness registration's passkey insert collide. -/
def user8 : User := ⟨8, "u8@example.com", "User Eight", 0, 0⟩

/-- Witness fixture: a database with a pending registration ceremony for
candidate user 7 and a passkey row whose id collides with the one the
registration finish will try to create. -/
def dbRegCollision : Db :=
  ⟨[user8], [], [⟨21, 8, none, ⟨4, 0⟩, 0, none⟩], [⟨5, 7, "u7@example.com", 9, 0⟩], [], []⟩

/-- Witness fixture: a database with only a targeted authentication
ceremony state (id 5, for user 7's email) created at time 0. -/
def dbTargeted : Db :=
  ⟨[user7], [], [passkey37], [], [⟨5, some ("u7@example.com"), .Regular 9, 0⟩], []⟩

/-- Witness fixture: a discoverable ceremony state without any stored
passkey, so the claimed credential id cannot be resolved. -/
def dbDiscoNoKey : Db :=
  ⟨[user7], [], [], [], [⟨5, none, .Discoverable 9, 0⟩], []⟩

/-- Witness fixture: the stored credential with id 3 belongs to user 8,
while the ceremony library reports claimed user id 7. -/
def dbCross : Db :=
  ⟨[user7, user8], [], [⟨21, 8, none, ⟨3, 0⟩, 0, none⟩], [],
   [⟨5, none, .Discoverable 9, 0⟩], []⟩

theorem ts_refl (db : Db) : TerminalsStay db db :=
  fun _ s hs hne => ⟨s, hs, hne⟩

theorem ts_trans {a b c : Db} (h1 : TerminalsStay a b) (h2 : TerminalsStay b c) :
    TerminalsStay a c := by
  intro h s hs hne
  obtain ⟨s1, hs1, hne1⟩ := h1 h s hs hne
  exact h2 h s1 hs1 hne1

theorem ts_of_sessions_eq {db db1 : Db} (h : db1.sessions = db.sessions) :
    TerminalsStay db db1 := by
  intro hh s hs hne
  exact ⟨s, by simpa [lookupSession, h] using hs, hne⟩

theorem ts_create_session (db : Db) (s : Session) :
    TerminalsStay db (Ref.create_session db s).1 := by
  unfold Ref.create_session
  split
  · exact ts_refl db
  · intro h t ht hne
    refine ⟨t, ?_, hne⟩
    simpa [lookupSession, List.find?_append] using Or.inl ht

theorem ts_update_session (db : Db) (h0 : HashVal) (u : SessionUpdate)
    (hu : u.state ≠ some .Active) : TerminalsStay db (Ref.update_session db h0 u).1 := by
  unfold Ref.update_session
  split
  · exact ts_refl db
  · split
    · exact ts_refl db
    · rename_i hne0 s0 hfind
      intro h s hs hstate
      have hs0 : s0.id_hash = h0 := by simpa using List.find?_some hfind
      have hcomp : ((fun t : Session => t.id_hash == h) ∘
          (fun t : Session => if t.id_hash == h0 then
            { s0 with state := u.state.getD s0.state,
                      expires_at := u.expires_at.getD s0.expires_at } else t))
          = fun t : Session => t.id_hash == h := by
        funext t
        by_cases ht : t.id_hash = h0
        · simp [Function.comp, ht, hs0]
        · simp [Function.comp, ht]
      have hlook : lookupSession
          { db with sessions := db.sessions.map (fun t =>
              if t.id_hash == h0 then
                { s0 with state := u.state.getD s0.state,
                          expires_at := u.expires_at.getD s0.expires_at } else t) } h
          = some (if s.id_hash == h0 then
              { s0 with state := u.state.getD s0.state,
                        expires_at := u.expires_at.getD s0.expires_at } else s) := by
        have hs2 : List.find? (fun t : Session => t.id_hash == h) db.sessions = some s := hs
        simp only [lookupSession, List.find?_map, hcomp, hs2]
        rfl
      have hsidh : s.id_hash = h := by simpa using List.find?_some hs
      dsimp only
      by_cases hsh : s.id_hash = h0
      · have hheq : h = h0 := by rw [← hsidh, hsh]
        have hss0 : s = s0 := by
          have hs3 : List.find? (fun t : Session => t.id_hash == h0) db.sessions = some s := by
            rw [← hheq]
            exact hs
          exact Option.some.inj (hfind.symm.trans hs3) |>.symm
        refine ⟨Session.mk s0.id_hash s0.user_id (u.state.getD s0.state) s0.created_at
            (u.expires_at.getD s0.expires_at) s0.is_admin s0.parent_id_hash, ?_, ?_⟩
        · rw [hlook]
          simp [hsh]
        · match hu4 : u.state with
          | none => simpa [hu4, hss0] using hstate
          | some st =>
            have hst : st ≠ .Active := by
              intro hst
              exact hu (by rw [hu4, hst])
            simpa [hu4] using hst
      · refine ⟨s, ?_, hstate⟩
        rw [hlook]
        simp [hsh]

@[simp] theorem refOps_create_user : refOps.create_user = Ref.create_user := rfl

@[simp] theorem refOps_get_user_by_id : refOps.get_user_by_id = Ref.get_user_by_id := rfl

@[simp] theorem refOps_get_user_by_email : refOps.get_user_by_email = Ref.get_user_by_email := rfl

@[simp] theorem refOps_delete_user_by_id : refOps.delete_user_by_id = Ref.delete_user_by_id := rfl

@[simp] theorem refOps_get_tags_by_user_id :
    refOps.get_tags_by_user_id = Ref.get_tags_by_user_id := rfl

@[simp] theorem refOps_create_passkey : refOps.create_passkey = Ref.create_passkey := rfl

@[simp] theorem refOps_get_passkey_by_credential_id :
    refOps.get_passkey_by_credential_id = Ref.get_passkey_by_credential_id := rfl

@[simp] theorem refOps_update_passkey : refOps.update_passkey = Ref.update_passkey := rfl

@[simp] theorem refOps_create_passkey_registration :
    refOps.create_passkey_registration = Ref.create_passkey_registration := rfl

@[simp] theorem refOps_get_passkey_registration_by_id :
    refOps.get_passkey_registration_by_id = Ref.get_passkey_registration_by_id := rfl

@[simp] theorem refOps_create_passkey_authentication :
    refOps.create_passkey_authentication = Ref.create_passkey_authentication := rfl

@[simp] theorem refOps_get_passkey_authentication_by_id :
    refOps.get_passkey_authentication_by_id = Ref.get_passkey_authentication_by_id := rfl

@[simp] theorem refOps_get_passkeys_by_user_email :
    refOps.get_passkeys_by_user_email = Ref.get_passkeys_by_user_email := rfl

@[simp] theorem refOps_create_session : refOps.create_session = Ref.create_session := rfl

@[simp] theorem refOps_get_session_by_id_hash :
    refOps.get_session_by_id_hash = Ref.get_session_by_id_hash := rfl

@[simp] theorem refOps_update_session : refOps.update_session = Ref.update_session := rfl

@[simp] theorem Ref.get_user_by_id_fst (db : Db) (id : Uuid) :
    (Ref.get_user_by_id db id).1 = db := rfl

@[simp] theorem Ref.get_user_by_email_fst (db : Db) (email : String) :
    (Ref.get_user_by_email db email).1 = db := rfl

@[simp] theorem Ref.get_tags_by_user_id_fst (db : Db) (id : Uuid) :
    (Ref.get_tags_by_user_id db id).1 = db := rfl

@[simp] theorem Ref.get_passkey_by_credential_id_fst (db : Db) (cid : CredId) :
    (Ref.get_passkey_by_credential_id db cid).1 = db := rfl

@[simp] theorem Ref.get_passkey_registration_by_id_fst (db : Db) (id : Uuid) :
    (Ref.get_passkey_registration_by_id db id).1 = db := rfl

@[simp] theorem Ref.get_passkey_authentication_by_id_fst (db : Db) (id : Uuid) :
    (Ref.get_passkey_authentication_by_id db id).1 = db := rfl

@[simp] theorem Ref.get_passkeys_by_user_email_fst (db : Db) (email : String) :
    (Ref.get_passkeys_by_user_email db email).1 = db := rfl

@[simp] theorem Ref.get_session_by_id_hash_fst (db : Db) (h : HashVal) :
    (Ref.get_session_by_id_hash db h).1 = db := rfl

@[simp] theorem Ref.create_user_sessions (db : Db) (id : Uuid) (u : UserCreate)
    (now : Timestamp) : ((Ref.create_user db id u now).1).sessions = db.sessions := by
  unfold Ref.create_user
  split <;> rfl

@[simp] theorem Ref.delete_user_by_id_sessions (db : Db) (id : Uuid) :
    ((Ref.delete_user_by_id db id).1).sessions = db.sessions := rfl

@[simp] theorem Ref.create_passkey_sessions (db : Db) (id user_id : Uuid)
    (pk : NewPasskeyCredential) (now : Timestamp) :
    ((Ref.create_passkey db id user_id pk now).1).sessions = db.sessions := by
  unfold Ref.create_passkey
  split
  · rfl
  · split <;> rfl

@[simp] theorem Ref.update_passkey_sessions (db : Db) (id : Uuid)
    (u : PasskeyCredentialUpdate) :
    ((Ref.update_passkey db id u).1).sessions = db.sessions := by
  unfold Ref.update_passkey
  split
  · rfl
  · split <;> rfl

@[simp] theorem Ref.create_passkey_registration_sessions (db : Db)
    (st : PasskeyRegistrationState) :
    ((Ref.create_passkey_registration db st).1).sessions = db.sessions := by
  unfold Ref.create_passkey_registration
  split <;> rfl

@[simp] theorem Ref.create_passkey_authentication_sessions (db : Db)
    (st : PasskeyAuthenticationState) :
    ((Ref.create_passkey_authentication db st).1).sessions = db.sessions := by
  unfold Ref.create_passkey_authentication
  split
  · rfl
  · split
    · split <;> rfl
    · rfl

/-- The final database of `new_session` over the reference store is that
of the one `create_session` call it makes. -/
theorem new_session_db (db : Db) (hash : Nat → HashVal) (raw_id : Nat) (now : Timestamp)
    (user_id : Uuid) (is_admin : Bool) (parent : Option Session) :
    (new_session refOps db hash raw_id now user_id is_admin parent).1 =
      (Ref.create_session db
        ⟨hash raw_id, user_id, .Active, now, now + SESSION_DURATION, is_admin,
         parent.map (fun p => p.id_hash)⟩).1 := by
  unfold new_session
  dsimp only [refOps_create_session]
  split <;> rename_i heq <;> rw [heq]

theorem ts_new_session (db : Db) (hash : Nat → HashVal) (raw_id : Nat) (now : Timestamp)
    (user_id : Uuid) (is_admin : Bool) (parent : Option Session) :
    TerminalsStay db (new_session refOps db hash raw_id now user_id is_admin parent).1 := by
  rw [new_session_db]
  exact ts_create_session db _

/-- The final database of `supersede_session` over the reference store
is that of the one `update_session` call it makes. -/
theorem supersede_session_db (db : Db) (session : Session) :
    (supersede_session refOps db session).1 =
      (Ref.update_session db session.id_hash ⟨some .Superseded, none⟩).1 := by
  unfold supersede_session
  dsimp only [refOps_update_session]
  split <;> rename_i heq <;> rw [heq]

theorem ts_supersede_session (db : Db) (session : Session) :
    TerminalsStay db (supersede_session refOps db session).1 := by
  rw [supersede_session_db]
  exact ts_update_session db session.id_hash ⟨some .Superseded, none⟩ (by simp)

/-- `do_passkey_update` touches only the passkey table. -/
theorem do_passkey_update_sessions (w : WebauthnImpl) (db : Db) (result : AuthResult) :
    ((do_passkey_update refOps w db result).1).sessions = db.sessions := by
  unfold do_passkey_update
  dsimp only [refOps_get_passkey_by_credential_id, refOps_update_passkey]
  split
  · rename_i db2 e heq
    have h1 := congrArg Prod.fst heq
    simp at h1
    rw [← h1]
  · rename_i db2 passkey heq
    have h1 := congrArg Prod.fst heq
    simp at h1
    split
    · split <;> rename_i heq2 <;>
        have h2 := congrArg (fun p => (Prod.fst p).sessions) heq2 <;>
        simp at h2 <;> rw [← h2, ← h1]
    · rw [← h1]

/-- The extractor is read-only. -/
theorem authenticated_session_fst (db : Db) (now : Timestamp)
    (cookie : Option (Option HashVal)) :
    (authenticated_session refOps db now cookie).1 = db := by
  unfold authenticated_session
  dsimp only [refOps_get_session_by_id_hash]
  split
  · rfl
  · rfl
  · split
    · rename_i session heq
      have h1 := congrArg Prod.fst heq
      simp at h1
      split <;> rw [← h1]
    · rename_i heq
      have h1 := congrArg Prod.fst heq
      simp at h1
      rw [← h1]
    · rename_i heq
      have h1 := congrArg Prod.fst heq
      simp at h1
      rw [← h1]

theorem ts_start_registration (w : WebauthnImpl) (db : Db) (now : Timestamp)
    (request : UserCreate) (user_id reg_id : Uuid) :
    TerminalsStay db (start_registration refOps w db now request user_id reg_id).db := by
  unfold start_registration
  split
  · exact ts_refl db
  · dsimp only [refOps_create_passkey_registration]
    split <;> rename_i heq <;>
      have h1 := congrArg (fun p => (Prod.fst p).sessions) heq <;>
      simp at h1 <;> exact ts_of_sessions_eq h1.symm

theorem ts_finish_registration_rest (w : WebauthnImpl) (db : Db) (now : Timestamp)
    (reg_state : PasskeyRegistrationState) (request : FinishRegistrationRequest)
    (pk_id : Uuid) (raw_id : Nat) (hash : Nat → HashVal) :
    TerminalsStay db
      (finish_registration_rest refOps w db now reg_state request pk_id raw_id hash).db := by
  unfold finish_registration_rest
  split
  · exact ts_refl db
  · dsimp only [refOps_create_user, refOps_create_passkey, refOps_delete_user_by_id]
    split <;> rename_i heq1 <;>
      have h1 := congrArg (fun p => (Prod.fst p).sessions) heq1 <;> simp at h1
    · exact ts_of_sessions_eq h1.symm
    · rename_i db1 user
      split <;> rename_i heq2 <;>
        have h2 := congrArg (fun p => (Prod.fst p).sessions) heq2 <;> simp at h2
      · rename_i db2 e
        exact ts_of_sessions_eq
          (by simp only [Ref.delete_user_by_id_sessions]; rw [← h2, ← h1])
      · rename_i db2 pk
        split <;> rename_i heq3 <;>
          have h3 := congrArg Prod.fst heq3 <;>
          rw [new_session_db] at h3 <;>
          exact ts_trans (ts_of_sessions_eq (by rw [← h2, ← h1]))
            (h3 ▸ ts_create_session db2 _)

theorem ts_finish_registration (w : WebauthnImpl) (db : Db) (now : Timestamp)
    (cookie : Option (Option Uuid)) (request : FinishRegistrationRequest)
    (pk_id : Uuid) (raw_id : Nat) (hash : Nat → HashVal) :
    TerminalsStay db
      (finish_registration refOps w db now cookie request pk_id raw_id hash).db := by
  unfold finish_registration
  dsimp only [refOps_get_passkey_registration_by_id]
  split
  · exact ts_refl db
  · exact ts_refl db
  · split <;> rename_i heq <;> have h1 := congrArg Prod.fst heq <;> simp at h1
    · exact ts_of_sessions_eq (by rw [← h1])
    · rename_i db1 reg_state
      split
      · exact ts_of_sessions_eq (by rw [← h1])
      · exact h1 ▸ ts_finish_registration_rest w db now reg_state request pk_id raw_id hash

theorem ts_start_authentication (w : WebauthnImpl) (db : Db) (now : Timestamp)
    (email : String) (auth_id : Uuid) :
    TerminalsStay db (start_authentication refOps w db now email auth_id).db := by
  unfold start_authentication
  dsimp only [refOps_get_passkeys_by_user_email, refOps_create_passkey_authentication]
  split <;> rename_i heq <;> have h1 := congrArg Prod.fst heq <;> simp at h1
  · exact ts_of_sessions_eq (by rw [← h1])
  · rename_i db1 passkeys
    split
    · exact ts_of_sessions_eq (by rw [← h1])
    · split <;> rename_i heq2 <;>
        have h2 := congrArg (fun p => (Prod.fst p).sessions) heq2 <;> simp at h2 <;>
        exact ts_of_sessions_eq (by rw [← h2, ← h1])

theorem ts_finish_authentication_rest (w : WebauthnImpl) (db : Db) (now : Timestamp)
    (auth_state : PasskeyAuthenticationState) (request : ClientResponse)
    (raw_id : Nat) (hash : Nat → HashVal) :
    TerminalsStay db
      (finish_authentication_rest refOps w db now auth_state request raw_id hash).db := by
  unfold finish_authentication_rest
  dsimp only [refOps_get_user_by_email]
  split
  · exact ts_refl db
  · split
    · exact ts_refl db
    · rename_i result
      split <;> rename_i heq1 <;>
        have h1 := congrArg (fun p => (Prod.fst p).sessions) heq1 <;>
        simp only [apply_ite, do_passkey_update_sessions, ite_self] at h1
      · exact ts_of_sessions_eq h1.symm
      · rename_i db1 tr1 u
        split
        · exact ts_of_sessions_eq h1.symm
        · split <;> rename_i heq2 <;> have h2 := congrArg Prod.fst heq2 <;> simp at h2
          · exact ts_of_sessions_eq (by rw [← h2]; exact h1.symm)
          · rename_i db2 user
            split <;> rename_i heq3 <;> have h3 := congrArg Prod.fst heq3 <;>
                rw [new_session_db] at h3 <;>
              exact ts_trans (ts_of_sessions_eq (by rw [← h2]; exact h1.symm))
                (h3 ▸ ts_create_session db2 _)

theorem ts_finish_authentication (w : WebauthnImpl) (db : Db) (now : Timestamp)
    (cookie : Option (Option Uuid)) (request : ClientResponse)
    (raw_id : Nat) (hash : Nat → HashVal) :
    TerminalsStay db
      (finish_authentication refOps w db now cookie request raw_id hash).db := by
  unfold finish_authentication
  dsimp only [refOps_get_passkey_authentication_by_id]
  split
  · exact ts_refl db
  · exact ts_refl db
  · split <;> rename_i heq <;> have h1 := congrArg Prod.fst heq <;> simp at h1
    · exact ts_of_sessions_eq (by rw [← h1])
    · rename_i db1 auth_state
      split
      · exact ts_of_sessions_eq (by rw [← h1])
      · exact h1 ▸ ts_finish_authentication_rest w db now auth_state request raw_id hash

theorem ts_start_conditional_ui_authentication (w : WebauthnImpl) (db : Db)
    (now : Timestamp) (auth_id : Uuid) :
    TerminalsStay db (start_conditional_ui_authentication refOps w db now auth_id).db := by
  unfold start_conditional_ui_authentication
  dsimp only [refOps_create_passkey_authentication]
  split
  · exact ts_refl db
  · split <;> rename_i heq <;>
      have h1 := congrArg (fun p => (Prod.fst p).sessions) heq <;>
      simp at h1 <;> exact ts_of_sessions_eq h1.symm

theorem ts_finish_conditional_ui_authentication (w : WebauthnImpl) (db : Db)
    (now : Timestamp) (cookie : Option (Option Uuid)) (request : ClientResponse)
    (raw_id : Nat) (hash : Nat → HashVal) :
    TerminalsStay db
      (finish_conditional_ui_authentication refOps w db now cookie request raw_id hash).db := by
  unfold finish_conditional_ui_authentication
  dsimp only [refOps_get_passkey_authentication_by_id, refOps_get_passkey_by_credential_id,
    refOps_get_user_by_id]
  split
  · exact ts_refl db
  · exact ts_refl db
  · split
    · exact ts_refl db
    · split <;> rename_i heqa <;> have ha := congrArg Prod.fst heqa <;> simp at ha
      · exact ts_of_sessions_eq (by rw [← ha])
      · exact ts_of_sessions_eq (by rw [← ha])
      · rename_i dba auth_state
        split <;> rename_i heqb <;> have hb := congrArg Prod.fst heqb <;> simp at hb
        · exact ts_of_sessions_eq (by rw [← hb, ← ha])
        · exact ts_of_sessions_eq (by rw [← hb, ← ha])
        · rename_i dbb passkey
          have hab : dbb = db := by rw [← hb, ← ha]
          split
          · exact ts_of_sessions_eq (by rw [hab])
          · split
            · exact ts_of_sessions_eq (by rw [hab])
            · rename_i result
              split
              · exact ts_of_sessions_eq (by rw [hab])
              · split <;> rename_i heq1 <;>
                  have h1 := congrArg (fun p => (Prod.fst p).sessions) heq1 <;>
                  simp only [apply_ite, do_passkey_update_sessions, ite_self] at h1
                · exact ts_of_sessions_eq (by rw [← h1, hab])
                · rename_i db1 tr1 u
                  split <;> rename_i heq2 <;> have h2 := congrArg Prod.fst heq2 <;>
                    simp at h2
                  · exact ts_of_sessions_eq (by rw [← h2, ← h1, hab])
                  · rename_i db2 user
                    split <;> rename_i heq3 <;> have h3 := congrArg Prod.fst heq3 <;>
                        rw [new_session_db] at h3 <;>
                      exact ts_trans
                        (ts_of_sessions_eq (by rw [← h2, ← h1, hab]))
                        (h3 ▸ ts_create_session db2 _)

theorem ts_logout (db : Db) (session : Session) :
    TerminalsStay db (logout refOps db session).db := by
  unfold logout
  dsimp only [refOps_get_session_by_id_hash, refOps_update_session]
  split <;> rename_i heq <;> have h1 := congrArg Prod.fst heq <;> simp at h1
  · exact ts_of_sessions_eq (by rw [← h1])
  · rename_i db1 s
    split
    · split <;> rename_i heq2 <;> have h2 := congrArg Prod.fst heq2 <;>
        exact ts_trans (ts_of_sessions_eq (by rw [← h1]))
          (h2 ▸ ts_update_session db1 s.id_hash _ (by simp [SessionUpdate.with_state,
            SessionUpdate.new]))
    · exact ts_of_sessions_eq (by rw [← h1])

theorem ts_upgrade_session (db : Db) (session : Session) (target : UpgradeTarget)
    (raw_id : Nat) (hash : Nat → HashVal) (now : Timestamp) :
    TerminalsStay db (upgrade_session refOps db session target raw_id hash now).db := by
  unfold upgrade_session
  dsimp only [refOps_get_tags_by_user_id]
  split <;> rename_i heq <;> have h1 := congrArg Prod.fst heq <;> simp at h1
  · exact ts_of_sessions_eq (by rw [← h1])
  · rename_i db1 tags
    split
    · split <;> rename_i heq2 <;> have h2 := congrArg Prod.fst heq2 <;>
        rw [new_session_db] at h2
      · exact ts_trans (ts_of_sessions_eq (by rw [← h1]))
          (h2 ▸ ts_create_session db1 _)
      · rename_i db2 tr2 s2 v
        have hts2 : TerminalsStay db db2 :=
          ts_trans (ts_of_sessions_eq (by rw [← h1])) (h2 ▸ ts_create_session db1 _)
        split <;> rename_i heq3 <;> have h3 := congrArg Prod.fst heq3 <;>
            rw [supersede_session_db] at h3 <;>
          have h4 := ts_update_session db2 session.id_hash
            ⟨some .Superseded, none⟩ (by simp) <;>
          rw [h3] at h4 <;> exact ts_trans hts2 h4
    · exact ts_of_sessions_eq (by rw [← h1])

theorem ts_downgrade_session (db : Db) (session : Session)
    (raw_id : Nat) (hash : Nat → HashVal) (now : Timestamp) :
    TerminalsStay db (downgrade_session refOps db session raw_id hash now).db := by
  unfold downgrade_session
  dsimp only [refOps_get_session_by_id_hash]
  split
  · split <;> rename_i heq <;> have h1 := congrArg Prod.fst heq <;> simp at h1
    · exact ts_of_sessions_eq (by rw [← h1])
    · rename_i db1 parent_session
      split <;> rename_i heq2 <;> have h2 := congrArg Prod.fst heq2 <;>
        rw [new_session_db] at h2
      · exact ts_trans (ts_of_sessions_eq (by rw [← h1]))
          (h2 ▸ ts_create_session db1 _)
      · rename_i db2 tr2 s2 v
        have hts2 : TerminalsStay db db2 :=
          ts_trans (ts_of_sessions_eq (by rw [← h1])) (h2 ▸ ts_create_session db1 _)
        split <;> rename_i heq3 <;> have h3 := congrArg Prod.fst heq3 <;>
            rw [supersede_session_db] at h3 <;>
          have h4 := ts_update_session db2 session.id_hash
            ⟨some .Superseded, none⟩ (by simp) <;>
          rw [h3] at h4 <;> exact ts_trans hts2 h4
  · exact ts_refl db

theorem ts_get_session (db : Db) (session : Session) :
    TerminalsStay db (get_session refOps db session).db := by
  unfold get_session
  dsimp only [refOps_get_user_by_id]
  split <;> rename_i heq <;> have h1 := congrArg Prod.fst heq <;> simp at h1 <;>
    exact ts_of_sessions_eq (by rw [← h1])

theorem ts_post_user (db : Db) (now : Timestamp) (id : Uuid) (request : UserCreate) :
    TerminalsStay db (post_user refOps db now id request).db := by
  unfold post_user
  dsimp only [refOps_create_user]
  split <;> rename_i heq <;>
    have h1 := congrArg (fun p => (Prod.fst p).sessions) heq <;> simp at h1 <;>
    exact ts_of_sessions_eq h1.symm

/-- Every request of the system preserves the presence and terminality
of every terminal session. -/
theorem ts_applyOp (op : Op) (db : Db) : TerminalsStay db (applyOp op db).1 := by
  cases op with
  | opStartRegistration w now request user_id reg_id =>
    exact ts_start_registration w db now request user_id reg_id
  | opFinishRegistration w now cookie request pk_id raw_id hash =>
    exact ts_finish_registration w db now cookie request pk_id raw_id hash
  | opStartAuthentication w now email auth_id =>
    exact ts_start_authentication w db now email auth_id
  | opFinishAuthentication w now cookie request raw_id hash =>
    exact ts_finish_authentication w db now cookie request raw_id hash
  | opStartCondUI w now auth_id =>
    exact ts_start_conditional_ui_authentication w db now auth_id
  | opFinishCondUI w now cookie request raw_id hash =>
    exact ts_finish_conditional_ui_authentication w db now cookie request raw_id hash
  | opLogout now cookie =>
    simp only [applyOp]
    split <;> rename_i heq <;> have h1 := congrArg Prod.fst heq <;>
      rw [authenticated_session_fst] at h1
    · exact ts_of_sessions_eq (by rw [← h1])
    · rename_i db1 session
      exact h1 ▸ ts_logout db session
  | opUpgrade now cookie target raw_id hash =>
    simp only [applyOp]
    split <;> rename_i heq <;> have h1 := congrArg Prod.fst heq <;>
      rw [authenticated_session_fst] at h1
    · exact ts_of_sessions_eq (by rw [← h1])
    · rename_i db1 session
      exact h1 ▸ ts_upgrade_session db session target raw_id hash now
  | opDowngrade now cookie raw_id hash =>
    simp only [applyOp]
    split <;> rename_i heq <;> have h1 := congrArg Prod.fst heq <;>
      rw [authenticated_session_fst] at h1
    · exact ts_of_sessions_eq (by rw [← h1])
    · rename_i db1 session
      exact h1 ▸ ts_downgrade_session db session raw_id hash now
  | opGetSession now cookie =>
    simp only [applyOp]
    split <;> rename_i heq <;> have h1 := congrArg Prod.fst heq <;>
      rw [authenticated_session_fst] at h1
    · exact ts_of_sessions_eq (by rw [← h1])
    · rename_i db1 session
      exact h1 ▸ ts_get_session db session
  | opPostUser now id request =>
    exact ts_post_user db now id request

/-- Validating a session that is in any terminal state fails with
`SessionExpired`, regardless of the clock. -/
theorem validate_terminal (db : Db) (now : Timestamp) (h : HashVal) (s : Session)
    (hfind : lookupSession db h = some s) (hne : s.state ≠ .Active) :
    (authenticated_session refOps db now (some (some h))).2 = .error .sessionExpired := by
  unfold authenticated_session
  dsimp only [refOps_get_session_by_id_hash]
  have hgs : Ref.get_session_by_id_hash db h = (db, Except.ok s) := by
    unfold Ref.get_session_by_id_hash
    rw [show db.sessions.find? (fun t => t.id_hash == h) = some s from hfind]
  rw [hgs]
  have hb : (s.state != SessionState.Active) = true := by simp [hne]
  simp [hb]

theorem find?_append_some {α : Type} {l1 l2 : List α} {p : α → Bool} {x : α}
    (h : l1.find? p = some x) : (l1 ++ l2).find? p = some x := by
  rw [List.find?_append, h]
  rfl

theorem find?_append_of_none {α : Type} {l1 l2 : List α} {p : α → Bool}
    (h : l1.find? p = none) : (l1 ++ l2).find? p = l2.find? p := by
  rw [List.find?_append, h]
  rfl

theorem find?_map_key {f : Session → Session} (hf : ∀ t, (f t).id_hash = t.id_hash)
    (h : HashVal) (l : List Session) :
    (l.map f).find? (fun t => t.id_hash == h) =
      (l.find? (fun t => t.id_hash == h)).map f := by
  rw [List.find?_map]
  have hc : ((fun t : Session => t.id_hash == h) ∘ f) = fun t : Session => t.id_hash == h := by
    funext t
    simp [Function.comp, hf]
  rw [hc]

theorem any_map_key {f : Session → Session} (hf : ∀ t, (f t).id_hash = t.id_hash)
    (h : HashVal) (l : List Session) :
    (l.map f).any (fun t => t.id_hash == h) = l.any (fun t => t.id_hash == h) := by
  rw [List.any_map]
  have hc : ((fun t : Session => t.id_hash == h) ∘ f) = fun t : Session => t.id_hash == h := by
    funext t
    simp [Function.comp, hf]
  rw [hc]

/-- C2: after an authentication the Ceremony Library flags as needing a
stored-state update, `do_passkey_update` calls the store's
`update_passkey` with an update carrying only the new passkey blob
(`display_name` absent) — and on that very input the repository's
sqlite `update_passkey` panics: after its emptiness check it unwraps the
absent `display_name` ("There's only one updatable field, so we can just
unwrap it") and its UPDATE writes only the `display_name` column, so
the updated credential material is never persisted. This contradicts
the interface contract, the update type's documentation, and the
repository's own `test_update_passkey`, which performs a passkey-only
update and asserts the blob changed. -/
theorem c2_update_passkey_panics_on_passkey_only_update :
    ∀ (db : Db) (id : Uuid) (pk : PasskeyData),
      Sqlite.update_passkey db id
        (PasskeyCredentialUpdate.with_passkey PasskeyCredentialUpdate.new pk) =
        .panicked := by
  intro db id pk
  rfl

/-- C4: once a session is in a terminal state (`Superseded`,
`LoggedOut`, or `Revoked`), no request of the system returns it to
`Active` — it stays present and terminal across every operation — and
validating it always fails with `SessionExpired`. -/
theorem c4_terminal_is_forever :
    (∀ (op : Op) (db : Db) (h : HashVal) (s : Session),
       lookupSession db h = some s → s.state ≠ .Active →
       ∃ s1, lookupSession (applyOp op db).1 h = some s1 ∧ s1.state ≠ .Active) ∧
    (∀ (db : Db) (now : Timestamp) (h : HashVal) (s : Session),
       lookupSession db h = some s → s.state ≠ .Active →
       (authenticated_session refOps db now (some (some h))).2 = .error .sessionExpired) :=
  ⟨fun op db h s hf hn => ts_applyOp op db h s hf hn,
   fun db now h s hf hn => validate_terminal db now h s hf hn⟩

/-- Witness for C4 at a concrete input: a superseded session survives a
logout request terminally, and validating it yields `SessionExpired`. -/
theorem c4_witness :
    (lookupSession dbTerminal 5 = some ⟨5, 7, .Superseded, 0, 86400, false, none⟩) ∧
    ((⟨5, 7, .Superseded, 0, 86400, false, none⟩ : Session).state ≠ .Active) ∧
    (∃ s1, lookupSession (applyOp (.opLogout 10 (some (some 5))) dbTerminal).1 5 = some s1 ∧
      s1.state ≠ .Active) ∧
    (authenticated_session refOps dbTerminal 10 (some (some 5))).2 =
      .error .sessionExpired :=
  ⟨by decide, by decide,
   c4_terminal_is_forever.1 (.opLogout 10 (some (some 5))) dbTerminal 5
     ⟨5, 7, .Superseded, 0, 86400, false, none⟩ (by decide) (by decide),
   c4_terminal_is_forever.2 dbTerminal 10 5
     ⟨5, 7, .Superseded, 0, 86400, false, none⟩ (by decide) (by decide)⟩

/-- C9: when the session's owning user does not hold the `iam::admin`
tag, `upgrade_session` fails with the not-authorized error (`NotAdmin`
in the code, `NotAuthorized` in the spec's taxonomy), performs no store
write (empty trace), and leaves the database — hence the original
session — completely unchanged. -/
theorem c9_elevate_without_tag :
    ∀ (db : Db) (session : Session) (target : UpgradeTarget) (raw_id : Nat)
      (hash : Nat → HashVal) (now : Timestamp),
      ((db.user_tags.filter (fun p => p.1 == session.user_id)).map Prod.snd).any
        (fun t => t.name == ("iam::admin")) = false →
      upgrade_session refOps db session target raw_id hash now =
        ⟨db, [], .error .notAdmin⟩ := by
  intro db session target raw_id hash now hno
  unfold upgrade_session
  dsimp only [refOps_get_tags_by_user_id, Ref.get_tags_by_user_id]
  rw [hno]
  rfl

/-- Witness for C9 at a concrete input: user 7 holds no tags, so
elevation of their active session is refused and the store untouched. -/
theorem c9_witness :
    ((dbTerminal.user_tags.filter (fun p => p.1 == 7)).map Prod.snd).any
      (fun t => t.name == ("iam::admin")) = false ∧
    upgrade_session refOps dbTerminal ⟨5, 7, .Active, 0, 86400, false, none⟩ .Admin 50
      (fun n => n) 10 = ⟨dbTerminal, [], .error .notAdmin⟩ :=
  ⟨by decide,
   c9_elevate_without_tag dbTerminal ⟨5, 7, .Active, 0, 86400, false, none⟩ .Admin 50
     (fun n => n) 10 (by decide)⟩

/-- C1: contrary to the claim, the bearer value handed to the client is
the stored hash itself, not the raw token. For every successful
`new_session` run: the `session_id` cookie value equals the persisted
session's `id_hash` (the source sets the cookie to
`id_hash.to_string()`), that hash — not the discarded 256-bit raw
value — is the key under which the record is stored, and the
`AuthenticatedSession` extractor validates the presented cookie value by
direct lookup, without hashing it first. So the stored record contains
exactly the value the client holds. -/
theorem c1_client_bearer_equals_stored_hash :
    ∀ (db : Db) (hash : Nat → HashVal) (raw_id : Nat) (now : Timestamp) (user_id : Uuid)
      (is_admin : Bool) (parent : Option Session) (db1 : Db) (tr : List StoreEvent)
      (s : Session) (c : HashVal),
      new_session refOps db hash raw_id now user_id is_admin parent =
        (db1, tr, .ok (s, c)) →
      c = s.id_hash ∧
      s.id_hash = hash raw_id ∧
      lookupSession db1 c = some s ∧
      (authenticated_session refOps db1 now (some (some c))).2 = .ok s := by
  intro db hash raw_id now user_id is_admin parent db1 tr s c hrun
  unfold new_session at hrun
  dsimp only [refOps_create_session] at hrun
  rcases hcs : Ref.create_session db ⟨hash raw_id, user_id, .Active, now,
      now + SESSION_DURATION, is_admin, parent.map (fun p => p.id_hash)⟩ with ⟨db2, r⟩
  rw [hcs] at hrun
  cases r with
  | error e => simp at hrun
  | ok v =>
    simp only [Prod.mk.injEq, Except.ok.injEq] at hrun
    obtain ⟨hdb, htr, hs, hc⟩ := hrun
    subst hdb
    subst hs
    subst hc
    unfold Ref.create_session at hcs
    split at hcs
    · simp at hcs
    · rename_i hany
      simp only [Prod.mk.injEq] at hcs
      obtain ⟨hdb1, -⟩ := hcs
      subst hdb1
      have hanyf : db.sessions.any (fun t => t.id_hash == hash raw_id) = false := by
        simpa using hany
      have hnone : db.sessions.find? (fun t => t.id_hash == hash raw_id) = none := by
        rw [List.find?_eq_none]
        intro x hx
        simpa using (List.any_eq_false.mp hanyf) x hx
      have hfind2 : (db.sessions ++
          [(⟨hash raw_id, user_id, .Active, now, now + SESSION_DURATION, is_admin,
            parent.map (fun p => p.id_hash)⟩ : Session)]).find?
            (fun t => t.id_hash == hash raw_id) =
          some ⟨hash raw_id, user_id, .Active, now, now + SESSION_DURATION, is_admin,
            parent.map (fun p => p.id_hash)⟩ := by
        rw [find?_append_of_none hnone]
        simp
      have hlook : lookupSession
          { db with sessions := db.sessions ++
              [⟨hash raw_id, user_id, .Active, now, now + SESSION_DURATION, is_admin,
                parent.map (fun p => p.id_hash)⟩] } (hash raw_id) =
          some ⟨hash raw_id, user_id, .Active, now, now + SESSION_DURATION, is_admin,
            parent.map (fun p => p.id_hash)⟩ := by
        unfold lookupSession
        dsimp only
        exact hfind2
      refine ⟨rfl, rfl, hlook, ?_⟩
      unfold authenticated_session
      dsimp only [refOps_get_session_by_id_hash]
      unfold Ref.get_session_by_id_hash
      dsimp only
      rw [hfind2]
      have hexp : (decide (now + SESSION_DURATION < now)) = false := by
        rw [decide_eq_false_iff_not, show SESSION_DURATION = 86400 from rfl]
        linarith
      have hpos : ¬ (SESSION_DURATION < 0) := by
        rw [show SESSION_DURATION = 86400 from rfl]
        norm_num
      simp [hexp, hpos]

/-- Witness for C1 at a concrete input: minting with raw token 1 under
the stand-in hash `n + 100` hands the client the value 101 — exactly
the stored `id_hash` — and validation of 101 succeeds by direct
lookup. -/
theorem c1_witness :
    new_session refOps ⟨[], [], [], [], [], []⟩ (fun n => n + 100) 1 0 7 false none =
      (Db.mk [] [] [] [] [] [Session.mk 101 7 SessionState.Active 0 86400 false none],
       [StoreEvent.createSession (Session.mk 101 7 SessionState.Active 0 86400 false none)],
       Except.ok (Session.mk 101 7 SessionState.Active 0 86400 false none, 101)) ∧
    (101 = (⟨101, 7, .Active, 0, 86400, false, none⟩ : Session).id_hash ∧
     (⟨101, 7, .Active, 0, 86400, false, none⟩ : Session).id_hash = (fun n => n + 100) 1 ∧
     lookupSession ⟨[], [], [], [], [], [⟨101, 7, .Active, 0, 86400, false, none⟩]⟩ 101 =
       some ⟨101, 7, .Active, 0, 86400, false, none⟩ ∧
     (authenticated_session refOps
       ⟨[], [], [], [], [], [⟨101, 7, .Active, 0, 86400, false, none⟩]⟩ 0
       (some (some 101))).2 = .ok ⟨101, 7, .Active, 0, 86400, false, none⟩) := by
  constructor
  · decide
  · exact c1_client_bearer_equals_stored_hash ⟨[], [], [], [], [], []⟩ (fun n => n + 100) 1 0 7
      false none _
      [StoreEvent.createSession (Session.mk 101 7 SessionState.Active 0 86400 false none)]
      _ _ (by decide)

/-- Counterexample for C6: a discoverable authentication ceremony
created at time 0 can still be finished successfully at time 1000 —
well past the five-minute (300 s) window — because
`finish_conditional_ui_authentication` performs no expiry check. -/
theorem c6_counterexample_disco_never_expires :
    (finish_conditional_ui_authentication refOps wAtom dbDisco 1000 (some (some 5)) 0 50
      (fun n => n)).out = .ok user7 ∧
    ((0 : Int) + 300 < 1000) := by
  constructor
  · decide
  · norm_num

/-- C6 (amended): for registration finish and targeted authentication
finish, with the ceremony state present, calling finish strictly later
than `created_at + 5min` fails with the expiry error (the code reuses
`SessionExpired` for it), and strictly earlier the expiry check passes
and the flow proceeds to library verification; the discoverable finish
path has no expiry check at all. -/
theorem c6_amended_expiry_boundary :
    (∀ (ops : DbOps) (w : WebauthnImpl) (db db1 : Db) (now : Timestamp) (rid : Uuid)
       (st : PasskeyRegistrationState) (request : FinishRegistrationRequest)
       (pk_id : Uuid) (raw_id : Nat) (hash : Nat → HashVal),
       ops.get_passkey_registration_by_id db rid = (db1, .ok st) →
       st.created_at + 300 < now →
       finish_registration ops w db now (some (some rid)) request pk_id raw_id hash =
         ⟨db1, [], .error .sessionExpired⟩) ∧
    (∀ (ops : DbOps) (w : WebauthnImpl) (db db1 : Db) (now : Timestamp) (rid : Uuid)
       (st : PasskeyRegistrationState) (request : FinishRegistrationRequest)
       (pk_id : Uuid) (raw_id : Nat) (hash : Nat → HashVal),
       ops.get_passkey_registration_by_id db rid = (db1, .ok st) →
       now < st.created_at + 300 →
       finish_registration ops w db now (some (some rid)) request pk_id raw_id hash =
         finish_registration_rest ops w db1 now st request pk_id raw_id hash) ∧
    (∀ (ops : DbOps) (w : WebauthnImpl) (db db1 : Db) (now : Timestamp) (aid : Uuid)
       (st : PasskeyAuthenticationState) (request : ClientResponse)
       (raw_id : Nat) (hash : Nat → HashVal),
       ops.get_passkey_authentication_by_id db aid = (db1, .ok st) →
       st.created_at + 300 < now →
       finish_authentication ops w db now (some (some aid)) request raw_id hash =
         ⟨db1, [], .error .sessionExpired⟩) ∧
    (∀ (ops : DbOps) (w : WebauthnImpl) (db db1 : Db) (now : Timestamp) (aid : Uuid)
       (st : PasskeyAuthenticationState) (request : ClientResponse)
       (raw_id : Nat) (hash : Nat → HashVal),
       ops.get_passkey_authentication_by_id db aid = (db1, .ok st) →
       now < st.created_at + 300 →
       finish_authentication ops w db now (some (some aid)) request raw_id hash =
         finish_authentication_rest ops w db1 now st request raw_id hash) := by
  refine ⟨?_, ?_, ?_, ?_⟩
  · intro ops w db db1 now rid st request pk_id raw_id hash h1 h2
    unfold finish_registration
    dsimp only
    rw [h1]
    dsimp only
    rw [if_pos (decide_eq_true (show st.created_at < now - 300 by linarith))]
  · intro ops w db db1 now rid st request pk_id raw_id hash h1 h2
    unfold finish_registration
    dsimp only
    rw [h1]
    dsimp only
    rw [if_neg (by simp only [decide_eq_true_eq]; intro hcontra; linarith)]
  · intro ops w db db1 now aid st request raw_id hash h1 h2
    unfold finish_authentication
    dsimp only
    rw [h1]
    dsimp only
    rw [if_pos (decide_eq_true (show st.created_at < now - 300 by linarith))]
  · intro ops w db db1 now aid st request raw_id hash h1 h2
    unfold finish_authentication
    dsimp only
    rw [h1]
    dsimp only
    rw [if_neg (by simp only [decide_eq_true_eq]; intro hcontra; linarith)]

/-- Witness for C6 (amended) at concrete inputs: the pending
registration and targeted-authentication ceremonies of the fixtures,
finished at times 1000 (expired) and 100 (within the window). -/
theorem c6_witness :
    (refOps.get_passkey_registration_by_id dbRegCollision 5 =
       (dbRegCollision, .ok ⟨5, 7, "u7@example.com", 9, 0⟩) ∧
     (0 : Int) + 300 < 1000 ∧
     finish_registration refOps wAtom dbRegCollision 1000 (some (some 5))
       ⟨⟨"u7@example.com", "User Seven"⟩, 2⟩ 21 1 (fun n => n) =
       ⟨dbRegCollision, [], .error .sessionExpired⟩) ∧
    ((100 : Int) < 0 + 300 ∧
     finish_registration refOps wAtom dbRegCollision 100 (some (some 5))
       ⟨⟨"u7@example.com", "User Seven"⟩, 2⟩ 21 1 (fun n => n) =
       finish_registration_rest refOps wAtom dbRegCollision 100 ⟨5, 7, "u7@example.com", 9, 0⟩
         ⟨⟨"u7@example.com", "User Seven"⟩, 2⟩ 21 1 (fun n => n)) ∧
    (refOps.get_passkey_authentication_by_id dbTargeted 5 =
       (dbTargeted, .ok ⟨5, some ("u7@example.com"), .Regular 9, 0⟩) ∧
     finish_authentication refOps wAtom dbTargeted 1000 (some (some 5)) 2 1 (fun n => n) =
       ⟨dbTargeted, [], .error .sessionExpired⟩) ∧
    (finish_authentication refOps wAtom dbTargeted 100 (some (some 5)) 2 1 (fun n => n) =
       finish_authentication_rest refOps wAtom dbTargeted 100
         ⟨5, some ("u7@example.com"), .Regular 9, 0⟩ 2 1 (fun n => n)) := by
  refine ⟨⟨by decide, by norm_num, ?_⟩, ⟨by norm_num, ?_⟩, ⟨by decide, ?_⟩, ?_⟩
  · exact c6_amended_expiry_boundary.1 refOps wAtom dbRegCollision dbRegCollision 1000 5
      ⟨5, 7, "u7@example.com", 9, 0⟩ ⟨⟨"u7@example.com", "User Seven"⟩, 2⟩ 21 1 (fun n => n)
      (by decide) (by norm_num)
  · exact c6_amended_expiry_boundary.2.1 refOps wAtom dbRegCollision dbRegCollision 100 5
      ⟨5, 7, "u7@example.com", 9, 0⟩ ⟨⟨"u7@example.com", "User Seven"⟩, 2⟩ 21 1 (fun n => n)
      (by decide) (by norm_num)
  · exact c6_amended_expiry_boundary.2.2.1 refOps wAtom dbTargeted dbTargeted 1000 5
      ⟨5, some ("u7@example.com"), .Regular 9, 0⟩ 2 1 (fun n => n) (by decide) (by norm_num)
  · exact c6_amended_expiry_boundary.2.2.2 refOps wAtom dbTargeted dbTargeted 100 5
      ⟨5, some ("u7@example.com"), .Regular 9, 0⟩ 2 1 (fun n => n) (by decide) (by norm_num)

/-- C7: in discoverable authentication finish, when the stored
credential fetched via the library-reported credential id belongs to a
user other than the library-reported claimed user id, the request fails
with an `AuthFailed` authentication error, the database is unchanged,
and no store write — in particular no session mint — occurs. -/
theorem c7_discoverable_cross_check :
    ∀ (w : WebauthnImpl) (db : Db) (now : Timestamp) (auth_id : Uuid)
      (request : ClientResponse) (raw_id : Nat) (hash : Nat → HashVal)
      (user_id : Uuid) (cred_id : CredId) (auth_state : PasskeyAuthenticationState)
      (ds : ContinuationDisco) (passkey : PasskeyCredential),
      w.identify_discoverable_authentication request = .ok (user_id, cred_id) →
      db.authentications.find? (fun a => a.id == auth_id) = some auth_state →
      auth_state.state = .Discoverable ds →
      db.passkeys.find? (fun p => p.passkey.cred_id == cred_id) = some passkey →
      passkey.user_id ≠ user_id →
      ∃ e, finish_conditional_ui_authentication refOps w db now (some (some auth_id))
        request raw_id hash = ⟨db, [], .error (.authFailed e)⟩ := by
  intro w db now auth_id request raw_id hash user_id cred_id auth_state ds passkey
  intro hident hfinda hstate hfindp hne
  unfold finish_conditional_ui_authentication
  dsimp only
  rw [hident]
  dsimp only [refOps_get_passkey_authentication_by_id, refOps_get_passkey_by_credential_id]
  unfold Ref.get_passkey_authentication_by_id
  rw [hfinda]
  dsimp only
  unfold Ref.get_passkey_by_credential_id
  rw [hfindp]
  dsimp only
  rw [hstate]
  dsimp only
  cases hv : w.finish_discoverable_authentication request ds passkey.passkey with
  | error e =>
    refine ⟨e, ?_⟩
    rfl
  | ok result =>
    have hbne : (passkey.user_id != user_id) = true := by simpa using hne
    refine ⟨.invalidUserUniqueId, ?_⟩
    dsimp only
    rw [if_pos hbne]

/-- Witness for C7 at a concrete input: credential 3 belongs to user 8
but the library claims user 7, so the fixture finish fails with an
authentication error and the store is untouched. -/
theorem c7_witness :
    (wAtom.identify_discoverable_authentication 2 = .ok (7, 3)) ∧
    (dbCross.authentications.find? (fun a => a.id == 5) =
      some ⟨5, none, .Discoverable 9, 0⟩) ∧
    (dbCross.passkeys.find? (fun p => p.passkey.cred_id == 3) =
      some ⟨21, 8, none, ⟨3, 0⟩, 0, none⟩) ∧
    ((8 : Uuid) ≠ 7) ∧
    (∃ e, finish_conditional_ui_authentication refOps wAtom dbCross 50 (some (some 5)) 2 1
      (fun n => n) = ⟨dbCross, [], .error (.authFailed e)⟩) := by
  refine ⟨by decide, by decide, by decide, by decide, ?_⟩
  exact c7_discoverable_cross_check wAtom dbCross 50 5 2 1 (fun n => n) 7 3
    ⟨5, none, .Discoverable 9, 0⟩ 9 ⟨21, 8, none, ⟨3, 0⟩, 0, none⟩
    (by decide) (by decide) (by decide) (by decide) (by decide)

/-- Counterexample for C8: in targeted authentication finish, a handle
with no stored ceremony state surfaces the store's `NotFound` through
the generic `From<DatabaseError>` conversion as the `NotFound` API error
(HTTP 404), which is distinguishable from the `InvalidAuthenticationId`
invalid-ceremony-handle error (HTTP 400) that the claim requires. -/
theorem c8_counterexample_targeted_not_found :
    (finish_authentication refOps wAtom ⟨[], [], [], [], [], []⟩ 0 (some (some 5)) 2 1
      (fun n => n)).out = .error .notFound ∧
    ApiV1Error.notFound ≠ ApiV1Error.invalidAuthenticationId := by
  constructor
  · decide
  · decide

/-- C8 (amended): in discoverable finish both an unknown ceremony handle
and an unknown credential id are collapsed into the same
`InvalidAuthenticationId` error, so the client cannot tell which of the
two identifiers exists; in targeted finish, however, an unknown handle
yields the distinguishable generic `NotFound` error. -/
theorem c8_amended_enumeration :
    (∀ (w : WebauthnImpl) (db : Db) (now : Timestamp) (aid : Uuid)
       (request : ClientResponse) (raw_id : Nat) (hash : Nat → HashVal),
       db.authentications.find? (fun a => a.id == aid) = none →
       finish_authentication refOps w db now (some (some aid)) request raw_id hash =
         ⟨db, [], .error .notFound⟩) ∧
    (∀ (w : WebauthnImpl) (db : Db) (now : Timestamp) (aid : Uuid)
       (request : ClientResponse) (raw_id : Nat) (hash : Nat → HashVal)
       (user_id : Uuid) (cred_id : CredId),
       w.identify_discoverable_authentication request = .ok (user_id, cred_id) →
       db.authentications.find? (fun a => a.id == aid) = none →
       finish_conditional_ui_authentication refOps w db now (some (some aid)) request
         raw_id hash = ⟨db, [], .error .invalidAuthenticationId⟩) ∧
    (∀ (w : WebauthnImpl) (db : Db) (now : Timestamp) (aid : Uuid)
       (request : ClientResponse) (raw_id : Nat) (hash : Nat → HashVal)
       (user_id : Uuid) (cred_id : CredId) (auth_state : PasskeyAuthenticationState),
       w.identify_discoverable_authentication request = .ok (user_id, cred_id) →
       db.authentications.find? (fun a => a.id == aid) = some auth_state →
       db.passkeys.find? (fun p => p.passkey.cred_id == cred_id) = none →
       finish_conditional_ui_authentication refOps w db now (some (some aid)) request
         raw_id hash = ⟨db, [], .error .invalidAuthenticationId⟩) := by
  refine ⟨?_, ?_, ?_⟩
  · intro w db now aid request raw_id hash hfind
    unfold finish_authentication
    dsimp only [refOps_get_passkey_authentication_by_id]
    unfold Ref.get_passkey_authentication_by_id
    try dsimp only
    rw [hfind]
    try rfl
  · intro w db now aid request raw_id hash user_id cred_id hident hfind
    unfold finish_conditional_ui_authentication
    dsimp only
    rw [hident]
    dsimp only [refOps_get_passkey_authentication_by_id]
    unfold Ref.get_passkey_authentication_by_id
    rw [hfind]
    try rfl
  · intro w db now aid request raw_id hash user_id cred_id auth_state hident hfinda hfindp
    unfold finish_conditional_ui_authentication
    dsimp only
    rw [hident]
    dsimp only [refOps_get_passkey_authentication_by_id, refOps_get_passkey_by_credential_id]
    unfold Ref.get_passkey_authentication_by_id
    rw [hfinda]
    try dsimp only
    unfold Ref.get_passkey_by_credential_id
    rw [hfindp]
    try rfl

/-- Witness for C8 (amended) at concrete inputs: an empty store for the
unknown-handle cases and the keyless discoverable fixture for the
unknown-credential case. -/
theorem c8_witness :
    (⟨[], [], [], [], [], []⟩ : Db).authentications.find? (fun a => a.id == 5) = none ∧
    (finish_authentication refOps wAtom ⟨[], [], [], [], [], []⟩ 0 (some (some 5)) 2 1
       (fun n => n) = ⟨⟨[], [], [], [], [], []⟩, [], .error .notFound⟩) ∧
    (finish_conditional_ui_authentication refOps wAtom ⟨[], [], [], [], [], []⟩ 0
       (some (some 5)) 2 1 (fun n => n) =
       ⟨⟨[], [], [], [], [], []⟩, [], .error .invalidAuthenticationId⟩) ∧
    (dbDiscoNoKey.passkeys.find? (fun p => p.passkey.cred_id == 3) = none ∧
     finish_conditional_ui_authentication refOps wAtom dbDiscoNoKey 0 (some (some 5)) 2 1
       (fun n => n) = ⟨dbDiscoNoKey, [], .error .invalidAuthenticationId⟩) := by
  refine ⟨by decide, ?_, ?_, by decide, ?_⟩
  · exact c8_amended_enumeration.1 wAtom ⟨[], [], [], [], [], []⟩ 0 5 2 1 (fun n => n)
      (by decide)
  · exact c8_amended_enumeration.2.1 wAtom ⟨[], [], [], [], [], []⟩ 0 5 2 1 (fun n => n) 7 3
      (by decide) (by decide)
  · exact c8_amended_enumeration.2.2 wAtom dbDiscoNoKey 0 5 2 1 (fun n => n) 7 3
      ⟨5, none, .Discoverable 9, 0⟩ (by decide) (by decide) (by decide)

/-- C5: during registration finish, whenever passkey creation fails
after the user record was created, the compensating delete of the
just-created user is invoked, its own outcome is discarded (only
logged), and the caller receives the credential-creation error — for
every store implementation, whether the delete succeeds or fails; over
the reference store the delete really removes the user row. -/
theorem c5_registration_compensation :
    (∀ (ops : DbOps) (w : WebauthnImpl) (db dbA dbB dbC dbD : Db) (now : Timestamp)
       (rid : Uuid) (st : PasskeyRegistrationState) (request : FinishRegistrationRequest)
       (pk_id : Uuid) (raw_id : Nat) (hash : Nat → HashVal) (pk : PasskeyData)
       (user : User) (e : DatabaseError) (dres : Except DatabaseError Unit),
       ops.get_passkey_registration_by_id db rid = (dbA, .ok st) →
       ¬(st.created_at < now - 300) →
       w.finish_passkey_registration request.passkey st.registration = .ok pk →
       ops.create_user dbA st.user_id request.user now = (dbB, .ok user) →
       ops.create_passkey dbB pk_id user.id ⟨none, pk⟩ now = (dbC, .error e) →
       ops.delete_user_by_id dbC user.id = (dbD, dres) →
       finish_registration ops w db now (some (some rid)) request pk_id raw_id hash =
         ⟨dbD, [.createUser st.user_id, .createPasskey pk_id, .deleteUser user.id],
          .error (dbToApi e)⟩) ∧
    (∀ (db : Db) (uid : Uuid),
       ((Ref.delete_user_by_id db uid).1).users.any (fun u => u.id == uid) = false) := by
  constructor
  · intro ops w db dbA dbB dbC dbD now rid st request pk_id raw_id hash pk user e dres
    intro h1 h2 h3 h4 h5 h6
    unfold finish_registration
    dsimp only
    rw [h1]
    dsimp only
    rw [if_neg (by simpa using h2)]
    unfold finish_registration_rest
    rw [h3]
    dsimp only
    rw [h4]
    dsimp only
    rw [h5]
    dsimp only
    exact congrArg (fun p : Db × Except DatabaseError Unit =>
      HRes.mk p.1 [.createUser st.user_id, .createPasskey pk_id, .deleteUser user.id]
        (.error (dbToApi e))) h6
  · intro db uid
    unfold Ref.delete_user_by_id
    dsimp only
    rw [List.any_eq_false]
    intro x hx
    simpa using (List.mem_filter.mp hx).2

/-- Witness for C5 at a concrete input: the registration fixture whose
passkey insert collides with an existing row, run against a store whose
compensating delete always fails — the caller still receives the
credential-creation error (surfaced as the internal-server error). -/
theorem c5_witness :
    failDeleteOps.get_passkey_registration_by_id dbRegCollision 5 =
      (dbRegCollision, .ok ⟨5, 7, "u7@example.com", 9, 0⟩) ∧
    ¬((0 : Int) < 100 - 300) ∧
    wAtom.finish_passkey_registration 2 9 = .ok ⟨3, 0⟩ ∧
    failDeleteOps.create_user dbRegCollision 7 ⟨"u7@example.com", "User Seven"⟩ 100 =
      (⟨[user8, ⟨7, "u7@example.com", "User Seven", 100, 100⟩], [],
        [⟨21, 8, none, ⟨4, 0⟩, 0, none⟩], [⟨5, 7, "u7@example.com", 9, 0⟩], [], []⟩,
       .ok ⟨7, "u7@example.com", "User Seven", 100, 100⟩) ∧
    failDeleteOps.create_passkey
      ⟨[user8, ⟨7, "u7@example.com", "User Seven", 100, 100⟩], [],
       [⟨21, 8, none, ⟨4, 0⟩, 0, none⟩], [⟨5, 7, "u7@example.com", 9, 0⟩], [], []⟩
      21 7 ⟨none, ⟨3, 0⟩⟩ 100 =
      (⟨[user8, ⟨7, "u7@example.com", "User Seven", 100, 100⟩], [],
        [⟨21, 8, none, ⟨4, 0⟩, 0, none⟩], [⟨5, 7, "u7@example.com", 9, 0⟩], [], []⟩,
       .error .UniquenessViolation) ∧
    failDeleteOps.delete_user_by_id
      ⟨[user8, ⟨7, "u7@example.com", "User Seven", 100, 100⟩], [],
       [⟨21, 8, none, ⟨4, 0⟩, 0, none⟩], [⟨5, 7, "u7@example.com", 9, 0⟩], [], []⟩ 7 =
      (⟨[user8, ⟨7, "u7@example.com", "User Seven", 100, 100⟩], [],
        [⟨21, 8, none, ⟨4, 0⟩, 0, none⟩], [⟨5, 7, "u7@example.com", 9, 0⟩], [], []⟩,
       .error .Other) ∧
    finish_registration failDeleteOps wAtom dbRegCollision 100 (some (some 5))
      ⟨⟨"u7@example.com", "User Seven"⟩, 2⟩ 21 1 (fun n => n) =
      ⟨⟨[user8, ⟨7, "u7@example.com", "User Seven", 100, 100⟩], [],
        [⟨21, 8, none, ⟨4, 0⟩, 0, none⟩], [⟨5, 7, "u7@example.com", 9, 0⟩], [], []⟩,
       [.createUser 7, .createPasskey 21, .deleteUser 7], .error .internalServerError⟩ := by
  refine ⟨by decide, by norm_num, by decide, by decide, by decide, by decide, ?_⟩
  exact c5_registration_compensation.1 failDeleteOps wAtom dbRegCollision dbRegCollision
    ⟨[user8, ⟨7, "u7@example.com", "User Seven", 100, 100⟩], [],
     [⟨21, 8, none, ⟨4, 0⟩, 0, none⟩], [⟨5, 7, "u7@example.com", 9, 0⟩], [], []⟩
    ⟨[user8, ⟨7, "u7@example.com", "User Seven", 100, 100⟩], [],
     [⟨21, 8, none, ⟨4, 0⟩, 0, none⟩], [⟨5, 7, "u7@example.com", 9, 0⟩], [], []⟩
    ⟨[user8, ⟨7, "u7@example.com", "User Seven", 100, 100⟩], [],
     [⟨21, 8, none, ⟨4, 0⟩, 0, none⟩], [⟨5, 7, "u7@example.com", 9, 0⟩], [], []⟩
    100 5 ⟨5, 7, "u7@example.com", 9, 0⟩ ⟨⟨"u7@example.com", "User Seven"⟩, 2⟩ 21 1
    (fun n => n) ⟨3, 0⟩ ⟨7, "u7@example.com", "User Seven", 100, 100⟩ .UniquenessViolation
    (.error .Other) (by decide) (by norm_num) (by decide) (by decide) (by decide) (by decide)

/-- The write trace of `new_session` is exactly one `createSession` with
the minted session's fields, whether or not the insert succeeds. -/
theorem new_session_tr (ops : DbOps) (db : Db) (hash : Nat → HashVal) (raw_id : Nat)
    (now : Timestamp) (user_id : Uuid) (is_admin : Bool) (parent : Option Session) :
    (new_session ops db hash raw_id now user_id is_admin parent).2.1 =
      [.createSession ⟨hash raw_id, user_id, .Active, now, now + SESSION_DURATION,
        is_admin, parent.map (fun p => p.id_hash)⟩] := by
  unfold new_session
  dsimp only
  split <;> rfl

/-- The write trace of `supersede_session` is exactly one
`updateSession` to `Superseded`. -/
theorem supersede_session_tr (ops : DbOps) (db : Db) (session : Session) :
    (supersede_session ops db session).2.1 =
      [.updateSession session.id_hash ⟨some .Superseded, none⟩] := by
  unfold supersede_session
  dsimp only
  split <;> rfl

theorem no_mint_do_passkey_update (ops : DbOps) (w : WebauthnImpl) (db : Db)
    (result : AuthResult) (s : Session) :
    StoreEvent.createSession s ∉ (do_passkey_update ops w db result).2.1 := by
  intro hmem
  unfold do_passkey_update at hmem
  split at hmem
  · simp at hmem
  · split at hmem
    · dsimp only at hmem
      split at hmem <;> simp at hmem
    · simp at hmem

theorem minted_fields_finish_registration_rest (ops : DbOps) (w : WebauthnImpl) (db : Db)
    (now : Timestamp) (st : PasskeyRegistrationState) (request : FinishRegistrationRequest)
    (pk_id : Uuid) (raw_id : Nat) (hash : Nat → HashVal) (s : Session)
    (hs : StoreEvent.createSession s ∈
      (finish_registration_rest ops w db now st request pk_id raw_id hash).tr) :
    s.is_admin = false ∧ s.parent_id_hash = none := by
  unfold finish_registration_rest at hs
  split at hs
  · simp at hs
  · dsimp only at hs
    split at hs
    · simp at hs
    · split at hs
      · simp at hs
      · split at hs <;> rename_i heq <;>
          have htr := congrArg (fun p => p.2.1) heq <;>
          dsimp only at htr <;>
          rw [new_session_tr] at htr <;>
          rw [← htr] at hs <;>
          simp at hs <;> subst hs <;> exact ⟨rfl, rfl⟩

theorem minted_fields_finish_registration (ops : DbOps) (w : WebauthnImpl) (db : Db)
    (now : Timestamp) (cookie : Option (Option Uuid)) (request : FinishRegistrationRequest)
    (pk_id : Uuid) (raw_id : Nat) (hash : Nat → HashVal) (s : Session)
    (hs : StoreEvent.createSession s ∈
      (finish_registration ops w db now cookie request pk_id raw_id hash).tr) :
    s.is_admin = false ∧ s.parent_id_hash = none := by
  unfold finish_registration at hs
  split at hs
  · simp at hs
  · simp at hs
  · split at hs
    · simp at hs
    · split at hs
      · simp at hs
      · exact minted_fields_finish_registration_rest ops w _ now _ request pk_id raw_id hash
          s hs

theorem minted_fields_finish_authentication_rest (ops : DbOps) (w : WebauthnImpl)
    (db : Db) (now : Timestamp) (st : PasskeyAuthenticationState) (request : ClientResponse)
    (raw_id : Nat) (hash : Nat → HashVal) (s : Session)
    (hs : StoreEvent.createSession s ∈
      (finish_authentication_rest ops w db now st request raw_id hash).tr) :
    s.is_admin = false ∧ s.parent_id_hash = none := by
  unfold finish_authentication_rest at hs
  split at hs
  · simp at hs
  · split at hs
    · simp at hs
    · rename_i result heqv
      have hcs : ∀ t : Session, StoreEvent.createSession t ∉
          ((if result.needs_update = true then do_passkey_update ops w db result
            else (db, [], Except.ok ())).2.1) := by
        intro t hmem
        split at hmem
        · exact no_mint_do_passkey_update ops w db result t hmem
        · simp at hmem
      split at hs <;> rename_i heq1
      · rename_i db1 tr0 e
        have htr0 := congrArg (fun p => p.2.1) heq1
        dsimp only at htr0
        rw [← htr0] at hs
        exact absurd hs (hcs s)
      · rename_i db1 tr0 u
        have htr0 := congrArg (fun p => p.2.1) heq1
        dsimp only at htr0
        split at hs
        · rw [← htr0] at hs
          exact absurd hs (hcs s)
        · split at hs
          · rw [← htr0] at hs
            exact absurd hs (hcs s)
          · split at hs <;> rename_i heq2 <;>
              have htr2 := congrArg (fun p => p.2.1) heq2 <;>
              dsimp only at htr2 <;>
              rw [new_session_tr] at htr2 <;>
              rw [← htr2, ← htr0] at hs <;>
              rw [List.mem_append] at hs <;>
              rcases hs with hs | hs
            · exact absurd hs (hcs s)
            · simp at hs
              subst hs
              exact ⟨rfl, rfl⟩
            · exact absurd hs (hcs s)
            · simp at hs
              subst hs
              exact ⟨rfl, rfl⟩

theorem minted_fields_finish_authentication (ops : DbOps) (w : WebauthnImpl) (db : Db)
    (now : Timestamp) (cookie : Option (Option Uuid)) (request : ClientResponse)
    (raw_id : Nat) (hash : Nat → HashVal) (s : Session)
    (hs : StoreEvent.createSession s ∈
      (finish_authentication ops w db now cookie request raw_id hash).tr) :
    s.is_admin = false ∧ s.parent_id_hash = none := by
  unfold finish_authentication at hs
  split at hs
  · simp at hs
  · simp at hs
  · split at hs
    · simp at hs
    · split at hs
      · simp at hs
      · exact minted_fields_finish_authentication_rest ops w _ now _ request raw_id hash s hs

theorem minted_fields_finish_conditional_ui (ops : DbOps) (w : WebauthnImpl) (db : Db)
    (now : Timestamp) (cookie : Option (Option Uuid)) (request : ClientResponse)
    (raw_id : Nat) (hash : Nat → HashVal) (s : Session)
    (hs : StoreEvent.createSession s ∈
      (finish_conditional_ui_authentication ops w db now cookie request raw_id hash).tr) :
    s.is_admin = false ∧ s.parent_id_hash = none := by
  unfold finish_conditional_ui_authentication at hs
  split at hs
  · simp at hs
  · simp at hs
  · split at hs
    · simp at hs
    · split at hs
      · simp at hs
      · simp at hs
      · rename_i dba ast heqa
        split at hs
        · simp at hs
        · simp at hs
        · rename_i dbb pkc heqb
          split at hs
          · simp at hs
          · split at hs
            · simp at hs
            · rename_i result heqv
              split at hs
              · simp at hs
              · have hcs : ∀ t : Session, StoreEvent.createSession t ∉
                    ((if result.needs_update = true
                      then do_passkey_update ops w dbb result
                      else (dbb, [], Except.ok ())).2.1) := by
                  intro t hmem
                  split at hmem
                  · exact no_mint_do_passkey_update ops w dbb result t hmem
                  · simp at hmem
                split at hs <;> rename_i heq1
                · rename_i db1 tr0 e
                  have htr0 := congrArg (fun p => p.2.1) heq1
                  dsimp only at htr0
                  rw [← htr0] at hs
                  exact absurd hs (hcs s)
                · rename_i db1 tr0 u
                  have htr0 := congrArg (fun p => p.2.1) heq1
                  dsimp only at htr0
                  split at hs
                  · rw [← htr0] at hs
                    exact absurd hs (hcs s)
                  · split at hs <;> rename_i heq2 <;>
                      have htr2 := congrArg (fun p => p.2.1) heq2 <;>
                      dsimp only at htr2 <;>
                      rw [new_session_tr] at htr2 <;>
                      rw [← htr2, ← htr0] at hs <;>
                      rw [List.mem_append] at hs <;>
                      rcases hs with hs | hs
                    · exact absurd hs (hcs s)
                    · simp at hs
                      subst hs
                      exact ⟨rfl, rfl⟩
                    · exact absurd hs (hcs s)
                    · simp at hs
                      subst hs
                      exact ⟨rfl, rfl⟩

theorem no_mint_start_registration (ops : DbOps) (w : WebauthnImpl) (db : Db)
    (now : Timestamp) (request : UserCreate) (uid rid : Uuid) (s : Session) :
    StoreEvent.createSession s ∉ (start_registration ops w db now request uid rid).tr := by
  intro hmem
  unfold start_registration at hmem
  split at hmem
  · simp at hmem
  · dsimp only at hmem
    split at hmem <;> simp at hmem

theorem no_mint_start_authentication (ops : DbOps) (w : WebauthnImpl) (db : Db)
    (now : Timestamp) (email : String) (aid : Uuid) (s : Session) :
    StoreEvent.createSession s ∉ (start_authentication ops w db now email aid).tr := by
  intro hmem
  unfold start_authentication at hmem
  split at hmem
  · simp at hmem
  · split at hmem
    · simp at hmem
    · dsimp only at hmem
      split at hmem <;> simp at hmem

theorem no_mint_start_conditional_ui (ops : DbOps) (w : WebauthnImpl) (db : Db)
    (now : Timestamp) (aid : Uuid) (s : Session) :
    StoreEvent.createSession s ∉
      (start_conditional_ui_authentication ops w db now aid).tr := by
  intro hmem
  unfold start_conditional_ui_authentication at hmem
  split at hmem
  · simp at hmem
  · dsimp only at hmem
    split at hmem <;> simp at hmem

theorem no_mint_logout (ops : DbOps) (db : Db) (session : Session) (s : Session) :
    StoreEvent.createSession s ∉ (logout ops db session).tr := by
  intro hmem
  unfold logout at hmem
  split at hmem
  · simp at hmem
  · split at hmem
    · dsimp only at hmem
      split at hmem <;> simp at hmem
    · simp at hmem

theorem no_mint_get_session (ops : DbOps) (db : Db) (session : Session) (s : Session) :
    StoreEvent.createSession s ∉ (get_session ops db session).tr := by
  intro hmem
  unfold get_session at hmem
  split at hmem <;> simp at hmem

theorem no_mint_post_user (ops : DbOps) (db : Db) (now : Timestamp) (id : Uuid)
    (request : UserCreate) (s : Session) :
    StoreEvent.createSession s ∉ (post_user ops db now id request).tr := by
  intro hmem
  unfold post_user at hmem
  split at hmem <;> simp at hmem

/-- Counterexample for C10: de-elevating an active session whose parent
is an elevated session mints a new session with `elevated = true` — so
an elevated session can be produced by `downgrade_session`, not only by
the elevate operation. The input is reachable: session 12 is exactly
what a previous de-elevation of admin session 11 produces, and it
validates. -/
theorem c10_counterexample_downgrade_mints_admin :
    (authenticated_session refOps dbReDowngrade 100 (some (some 12))).2 =
      .ok ⟨12, 7, .Active, 0, 86400, false, some 11⟩ ∧
    (downgrade_session refOps dbReDowngrade ⟨12, 7, .Active, 0, 86400, false, some 11⟩ 50
      (fun n => n) 100).tr =
      [.createSession ⟨50, 7, .Active, 100, 86500, true, some 12⟩,
       .updateSession 12 ⟨some .Superseded, none⟩] ∧
    (⟨50, 7, .Active, 100, 86500, true, some 12⟩ : Session).is_admin = true ∧
    (downgrade_session refOps dbReDowngrade ⟨12, 7, .Active, 0, 86400, false, some 11⟩ 50
      (fun n => n) 100).out = .ok 50 := by
  refine ⟨by decide, by decide, by decide, by decide⟩

/-- C10 (amended): every session minted by registration finish, targeted
authentication finish, or discoverable authentication finish has
`elevated = false` and no parent; across all requests, a session minted
with `elevated = true` can only come from the elevate or the de-elevate
request; and de-elevate copies the fetched parent session's privilege
level into the session it mints. -/
theorem c10_minting_discipline :
    (∀ (ops : DbOps) (w : WebauthnImpl) (db : Db) (now : Timestamp)
       (cookie : Option (Option Uuid)) (request : FinishRegistrationRequest)
       (pk_id : Uuid) (raw_id : Nat) (hash : Nat → HashVal) (s : Session),
       StoreEvent.createSession s ∈
         (finish_registration ops w db now cookie request pk_id raw_id hash).tr →
       s.is_admin = false ∧ s.parent_id_hash = none) ∧
    (∀ (ops : DbOps) (w : WebauthnImpl) (db : Db) (now : Timestamp)
       (cookie : Option (Option Uuid)) (request : ClientResponse)
       (raw_id : Nat) (hash : Nat → HashVal) (s : Session),
       StoreEvent.createSession s ∈
         (finish_authentication ops w db now cookie request raw_id hash).tr →
       s.is_admin = false ∧ s.parent_id_hash = none) ∧
    (∀ (ops : DbOps) (w : WebauthnImpl) (db : Db) (now : Timestamp)
       (cookie : Option (Option Uuid)) (request : ClientResponse)
       (raw_id : Nat) (hash : Nat → HashVal) (s : Session),
       StoreEvent.createSession s ∈
         (finish_conditional_ui_authentication ops w db now cookie request raw_id hash).tr →
       s.is_admin = false ∧ s.parent_id_hash = none) ∧
    (∀ (op : Op) (db : Db) (s : Session),
       StoreEvent.createSession s ∈ (applyOp op db).2 → s.is_admin = true →
       isElevationChange op = true) ∧
    (∀ (db : Db) (session : Session) (raw_id : Nat) (hash : Nat → HashVal)
       (now : Timestamp) (p : HashVal) (parent : Session) (s : Session),
       session.parent_id_hash = some p →
       lookupSession db p = some parent →
       StoreEvent.createSession s ∈
         (downgrade_session refOps db session raw_id hash now).tr →
       s.is_admin = parent.is_admin) := by
  refine ⟨?_, ?_, ?_, ?_, ?_⟩
  · intro ops w db now cookie request pk_id raw_id hash s hs
    exact minted_fields_finish_registration ops w db now cookie request pk_id raw_id hash s hs
  · intro ops w db now cookie request raw_id hash s hs
    exact minted_fields_finish_authentication ops w db now cookie request raw_id hash s hs
  · intro ops w db now cookie request raw_id hash s hs
    exact minted_fields_finish_conditional_ui ops w db now cookie request raw_id hash s hs
  · intro op db s hmem hadm
    cases op with
    | opStartRegistration w now request user_id reg_id =>
      simp only [applyOp] at hmem
      exact absurd hmem (no_mint_start_registration refOps w db now request user_id reg_id s)
    | opFinishRegistration w now cookie request pk_id raw_id hash =>
      simp only [applyOp] at hmem
      rw [(minted_fields_finish_registration refOps w db now cookie request pk_id raw_id
        hash s hmem).1] at hadm
      exact absurd hadm (by decide)
    | opStartAuthentication w now email auth_id =>
      simp only [applyOp] at hmem
      exact absurd hmem (no_mint_start_authentication refOps w db now email auth_id s)
    | opFinishAuthentication w now cookie request raw_id hash =>
      simp only [applyOp] at hmem
      rw [(minted_fields_finish_authentication refOps w db now cookie request raw_id
        hash s hmem).1] at hadm
      exact absurd hadm (by decide)
    | opStartCondUI w now auth_id =>
      simp only [applyOp] at hmem
      exact absurd hmem (no_mint_start_conditional_ui refOps w db now auth_id s)
    | opFinishCondUI w now cookie request raw_id hash =>
      simp only [applyOp] at hmem
      rw [(minted_fields_finish_conditional_ui refOps w db now cookie request raw_id
        hash s hmem).1] at hadm
      exact absurd hadm (by decide)
    | opLogout now cookie =>
      simp only [applyOp] at hmem
      split at hmem
      · simp at hmem
      · exact absurd hmem (no_mint_logout refOps _ _ s)
    | opUpgrade now cookie target raw_id hash => rfl
    | opDowngrade now cookie raw_id hash => rfl
    | opGetSession now cookie =>
      simp only [applyOp] at hmem
      split at hmem
      · simp at hmem
      · exact absurd hmem (no_mint_get_session refOps _ _ s)
    | opPostUser now id request =>
      simp only [applyOp] at hmem
      exact absurd hmem (no_mint_post_user refOps db now id request s)
  · intro db session raw_id hash now p parent s hp hlook hmem
    unfold downgrade_session at hmem
    rw [hp] at hmem
    dsimp only [refOps_get_session_by_id_hash] at hmem
    unfold Ref.get_session_by_id_hash at hmem
    rw [show db.sessions.find? (fun t => t.id_hash == p) = some parent from hlook] at hmem
    dsimp only at hmem
    split at hmem <;> rename_i heq2
    · have htr2 := congrArg (fun q => q.2.1) heq2
      dsimp only at htr2
      rw [new_session_tr] at htr2
      rw [← htr2] at hmem
      simp at hmem
      subst hmem
      rfl
    · rename_i db1 tr1 s1 v
      have htr1 := congrArg (fun q => q.2.1) heq2
      dsimp only at htr1
      rw [new_session_tr] at htr1
      split at hmem <;> rename_i heq3 <;>
        have htr3 := congrArg (fun q => q.2.1) heq3 <;>
        dsimp only at htr3 <;>
        rw [supersede_session_tr] at htr3 <;>
        rw [← htr1, ← htr3] at hmem <;>
        rw [List.mem_append] at hmem <;>
        rcases hmem with hmem | hmem <;>
        simp at hmem <;>
        subst hmem <;>
        rfl

/-- Witness for C10 (amended) at concrete inputs: a successful
registration finish whose minted session is non-admin and parentless,
and the re-downgrade fixture where the de-elevate request mints an
admin session copying the fetched parent's privilege. -/
theorem c10_witness :
    (StoreEvent.createSession ⟨1, 7, .Active, 100, 86500, false, none⟩ ∈
       (finish_registration refOps wAtom dbRegCollision 100 (some (some 5))
         ⟨⟨"u7@example.com", "User Seven"⟩, 2⟩ 22 1 (fun n => n)).tr) ∧
    ((⟨1, 7, .Active, 100, 86500, false, none⟩ : Session).is_admin = false ∧
     (⟨1, 7, .Active, 100, 86500, false, none⟩ : Session).parent_id_hash = none) ∧
    (StoreEvent.createSession ⟨50, 7, .Active, 100, 86500, true, some 12⟩ ∈
       (applyOp (.opDowngrade 100 (some (some 12)) 50 (fun n => n)) dbReDowngrade).2) ∧
    (isElevationChange (.opDowngrade 100 (some (some 12)) 50 (fun n => n)) = true) ∧
    ((⟨12, 7, .Active, 0, 86400, false, some 11⟩ : Session).parent_id_hash = some 11 ∧
     lookupSession dbReDowngrade 11 = some ⟨11, 7, .Superseded, 0, 86400, true, some 10⟩ ∧
     (⟨50, 7, .Active, 100, 86500, true, some 12⟩ : Session).is_admin =
       (⟨11, 7, .Superseded, 0, 86400, true, some 10⟩ : Session).is_admin) := by
  refine ⟨by decide, ?_, by decide, ?_, by decide, by decide, ?_⟩
  · exact c10_minting_discipline.1 refOps wAtom dbRegCollision 100 (some (some 5))
      ⟨⟨"u7@example.com", "User Seven"⟩, 2⟩ 22 1 (fun n => n)
      ⟨1, 7, .Active, 100, 86500, false, none⟩ (by decide)
  · exact c10_minting_discipline.2.2.2.1 (.opDowngrade 100 (some (some 12)) 50 (fun n => n))
      dbReDowngrade ⟨50, 7, .Active, 100, 86500, true, some 12⟩ (by decide) (by decide)
  · exact c10_minting_discipline.2.2.2.2 dbReDowngrade
      ⟨12, 7, .Active, 0, 86400, false, some 11⟩ 50 (fun n => n) 100 11
      ⟨11, 7, .Superseded, 0, 86400, true, some 10⟩
      ⟨50, 7, .Active, 100, 86500, true, some 12⟩ (by decide) (by decide) (by decide)

/-- Successful mint: when the fresh hash collides with no stored
session, `new_session` appends the new `Active` row and returns it with
the cookie value. -/
theorem new_session_ok (db : Db) (hash : Nat → HashVal) (raw_id : Nat) (now : Timestamp)
    (user_id : Uuid) (is_admin : Bool) (parent : Option Session)
    (hfresh : db.sessions.any (fun t => t.id_hash == hash raw_id) = false) :
    new_session refOps db hash raw_id now user_id is_admin parent =
      ({ db with sessions := db.sessions ++
          [⟨hash raw_id, user_id, .Active, now, now + SESSION_DURATION, is_admin,
            parent.map (fun p => p.id_hash)⟩] },
       [.createSession ⟨hash raw_id, user_id, .Active, now, now + SESSION_DURATION, is_admin,
         parent.map (fun p => p.id_hash)⟩],
       .ok (⟨hash raw_id, user_id, .Active, now, now + SESSION_DURATION, is_admin,
         parent.map (fun p => p.id_hash)⟩, hash raw_id)) := by
  unfold new_session
  dsimp only [refOps_create_session]
  unfold Ref.create_session
  dsimp only
  rw [if_neg (by rw [hfresh]; exact Bool.false_ne_true)]

/-- Successful supersede: with the target row present, `supersede_session`
rewrites it to `Superseded` in place. -/
theorem supersede_session_ok (db : Db) (session s0 : Session)
    (hfind : db.sessions.find? (fun t => t.id_hash == session.id_hash) = some s0) :
    supersede_session refOps db session =
      ({ db with sessions := db.sessions.map (fun t =>
          if t.id_hash == session.id_hash then
            ⟨s0.id_hash, s0.user_id, .Superseded, s0.created_at, s0.expires_at,
             s0.is_admin, s0.parent_id_hash⟩
          else t) },
       [.updateSession session.id_hash ⟨some .Superseded, none⟩],
       .ok ()) := by
  unfold supersede_session
  dsimp only [refOps_update_session]
  unfold Ref.update_session
  dsimp only
  rw [if_neg (by decide)]
  rw [hfind]
  rfl

/-- An in-place session update keyed by `target` does not change any
row's `id_hash` when the replacement carries the target's hash. -/
theorem upd_fn_preserves (target : HashVal) (r : Session) (hr : r.id_hash = target)
    (t : Session) : (if t.id_hash == target then r else t).id_hash = t.id_hash := by
  by_cases h : t.id_hash = target
  · simp [h, hr]
  · simp [h]

/-- Update-in-place lookup: mapping an id-hash-preserving in-place
update over the session table commutes with lookup. -/
theorem lookup_map_upd (l : List Session) (target : HashVal) (r : Session)
    (hr : r.id_hash = target) (h : HashVal) :
    (l.map (fun t => if t.id_hash == target then r else t)).find?
      (fun t => t.id_hash == h) =
      (l.find? (fun t => t.id_hash == h)).map
        (fun t => if t.id_hash == target then r else t) :=
  find?_map_key (fun t => upd_fn_preserves target r hr t) h l

/-- Successful elevation: with the admin tag present, a fresh hash, and
the current session's row found after the append, `upgrade_session`
appends the elevated child session and then supersedes the current row,
in that order. -/
theorem upgrade_session_ok (db : Db) (session : Session) (raw : Nat)
    (hash : Nat → HashVal) (now : Timestamp) (s0 : Session)
    (htag : ((db.user_tags.filter (fun q => q.1 == session.user_id)).map Prod.snd).any
      (fun t => t.name == ("iam::admin")) = true)
    (hfresh : db.sessions.any (fun t => t.id_hash == hash raw) = false)
    (hsup : (db.sessions ++
        [(⟨hash raw, session.user_id, .Active, now, now + SESSION_DURATION, true,
          some session.id_hash⟩ : Session)]).find?
          (fun t => t.id_hash == session.id_hash) = some s0) :
    upgrade_session refOps db session .Admin raw hash now =
      ⟨{ db with sessions := (db.sessions ++
          [(⟨hash raw, session.user_id, .Active, now, now + SESSION_DURATION, true,
            some session.id_hash⟩ : Session)]).map (fun t =>
              if t.id_hash == session.id_hash then
                ⟨s0.id_hash, s0.user_id, .Superseded, s0.created_at, s0.expires_at,
                 s0.is_admin, s0.parent_id_hash⟩
              else t) },
       [.createSession ⟨hash raw, session.user_id, .Active, now, now + SESSION_DURATION,
          true, some session.id_hash⟩,
        .updateSession session.id_hash ⟨some .Superseded, none⟩],
       .ok (hash raw)⟩ := by
  unfold upgrade_session
  dsimp only [refOps_get_tags_by_user_id]
  unfold Ref.get_tags_by_user_id
  dsimp only
  rw [if_pos htag]
  rw [new_session_ok db hash raw now session.user_id true (some session) hfresh]
  simp only [Option.map_some']
  rw [supersede_session_ok
    { db with sessions := db.sessions ++
        [(⟨hash raw, session.user_id, .Active, now, now + SESSION_DURATION, true,
          some session.id_hash⟩ : Session)] } session s0 hsup]
  rfl

/-- Successful de-elevation: with a parent recorded, the parent row
found, a fresh hash, and the current session's row found after the
append, `downgrade_session` appends a session carrying the parent's user
and privilege level and then supersedes the current row, in that
order. -/
theorem downgrade_session_ok (db : Db) (session parent s0 : Session) (p : HashVal)
    (raw : Nat) (hash : Nat → HashVal) (now : Timestamp)
    (hp : session.parent_id_hash = some p)
    (hpar : db.sessions.find? (fun t => t.id_hash == p) = some parent)
    (hfresh : db.sessions.any (fun t => t.id_hash == hash raw) = false)
    (hsup : (db.sessions ++
        [(⟨hash raw, parent.user_id, .Active, now, now + SESSION_DURATION, parent.is_admin,
          some session.id_hash⟩ : Session)]).find?
          (fun t => t.id_hash == session.id_hash) = some s0) :
    downgrade_session refOps db session raw hash now =
      ⟨{ db with sessions := (db.sessions ++
          [(⟨hash raw, parent.user_id, .Active, now, now + SESSION_DURATION,
            parent.is_admin, some session.id_hash⟩ : Session)]).map (fun t =>
              if t.id_hash == session.id_hash then
                ⟨s0.id_hash, s0.user_id, .Superseded, s0.created_at, s0.expires_at,
                 s0.is_admin, s0.parent_id_hash⟩
              else t) },
       [.createSession ⟨hash raw, parent.user_id, .Active, now, now + SESSION_DURATION,
          parent.is_admin, some session.id_hash⟩,
        .updateSession session.id_hash ⟨some .Superseded, none⟩],
       .ok (hash raw)⟩ := by
  unfold downgrade_session
  rw [hp]
  dsimp only [refOps_get_session_by_id_hash]
  unfold Ref.get_session_by_id_hash
  try dsimp only
  rw [hpar]
  try dsimp only
  rw [new_session_ok db hash raw now parent.user_id parent.is_admin (some session) hfresh]
  simp only [Option.map_some']
  rw [supersede_session_ok
    { db with sessions := db.sessions ++
        [(⟨hash raw, parent.user_id, .Active, now, now + SESSION_DURATION, parent.is_admin,
          some session.id_hash⟩ : Session)] } session s0 hsup]
  rfl

/-- C3: elevate/de-elevate round trip. Starting from an active
non-elevated session S of a user holding the `iam::admin` tag (with the
fresh hashes distinct from every stored one and from each other, and the
de-elevation happening before the elevated session expires): elevation
yields a new active session with `is_admin = true`, the same user, and
parent S, minted before S is superseded in place; the extractor accepts
the new cookie; de-elevation on that session yields a new active session
with the same user, the parent row's (non-elevated) privilege level, and
the elevated session as parent, minted before the elevated session is
superseded; and de-elevation fails with `DowngradeImpossible` on any
session without a parent. -/
theorem c3_elevate_deelevate_round_trip :
    (∀ (db : Db) (S : Session) (raw1 raw2 : Nat) (hash : Nat → HashVal)
      (now1 now2 : Timestamp),
      S.state = .Active →
      S.is_admin = false →
      ((db.user_tags.filter (fun q => q.1 == S.user_id)).map Prod.snd).any
        (fun t => t.name == ("iam::admin")) = true →
      lookupSession db S.id_hash = some S →
      db.sessions.any (fun t => t.id_hash == hash raw1) = false →
      db.sessions.any (fun t => t.id_hash == hash raw2) = false →
      hash raw2 ≠ hash raw1 →
      now2 ≤ now1 + SESSION_DURATION →
      ∃ db1 db2,
        upgrade_session refOps db S .Admin raw1 hash now1 =
          ⟨db1,
           [.createSession ⟨hash raw1, S.user_id, .Active, now1,
              now1 + SESSION_DURATION, true, some S.id_hash⟩,
            .updateSession S.id_hash ⟨some .Superseded, none⟩],
           .ok (hash raw1)⟩ ∧
        lookupSession db1 (hash raw1) =
          some ⟨hash raw1, S.user_id, .Active, now1, now1 + SESSION_DURATION,
            true, some S.id_hash⟩ ∧
        lookupSession db1 S.id_hash =
          some ⟨S.id_hash, S.user_id, .Superseded, S.created_at, S.expires_at,
            S.is_admin, S.parent_id_hash⟩ ∧
        authenticated_session refOps db1 now2 (some (some (hash raw1))) =
          (db1, .ok ⟨hash raw1, S.user_id, .Active, now1, now1 + SESSION_DURATION,
            true, some S.id_hash⟩) ∧
        downgrade_session refOps db1
          ⟨hash raw1, S.user_id, .Active, now1, now1 + SESSION_DURATION, true,
            some S.id_hash⟩ raw2 hash now2 =
          ⟨db2,
           [.createSession ⟨hash raw2, S.user_id, .Active, now2,
              now2 + SESSION_DURATION, false, some (hash raw1)⟩,
            .updateSession (hash raw1) ⟨some .Superseded, none⟩],
           .ok (hash raw2)⟩ ∧
        lookupSession db2 (hash raw2) =
          some ⟨hash raw2, S.user_id, .Active, now2, now2 + SESSION_DURATION,
            false, some (hash raw1)⟩ ∧
        lookupSession db2 (hash raw1) =
          some ⟨hash raw1, S.user_id, .Superseded, now1, now1 + SESSION_DURATION,
            true, some S.id_hash⟩) ∧
    (∀ (db : Db) (s : Session) (raw : Nat) (hash : Nat → HashVal) (now : Timestamp),
      s.parent_id_hash = none →
      downgrade_session refOps db s raw hash now = ⟨db, [], .error .downgradeImpossible⟩) := by
  constructor
  · intro db S raw1 raw2 hash now1 now2 hAct hAdm hTag hS hf1 hf2 hne hnow
    obtain ⟨sid, suid, sstate, scr, sex, sadm, spar⟩ := S
    dsimp only at hAct hAdm hTag hS
    subst hAct
    subst hAdm
    unfold lookupSession at hS
    have hmem : (⟨sid, suid, .Active, scr, sex, false, spar⟩ : Session) ∈ db.sessions :=
      List.mem_of_find?_eq_some hS
    have hid1 : sid ≠ hash raw1 := by
      have h := List.any_eq_false.mp hf1 _ hmem
      simpa using h
    have hnone1 : db.sessions.find? (fun t => t.id_hash == hash raw1) = none := by
      rw [List.find?_eq_none]
      exact List.any_eq_false.mp hf1
    have hsup1 : (db.sessions ++
        [(⟨hash raw1, suid, .Active, now1, now1 + SESSION_DURATION, true,
          some sid⟩ : Session)]).find? (fun t => t.id_hash == sid) =
        some ⟨sid, suid, .Active, scr, sex, false, spar⟩ :=
      find?_append_some hS
    have hu := upgrade_session_ok db ⟨sid, suid, .Active, scr, sex, false, spar⟩
      raw1 hash now1 ⟨sid, suid, .Active, scr, sex, false, spar⟩ hTag hf1 hsup1
    dsimp only at hu
    have hF1 : ((db.sessions ++
        [(⟨hash raw1, suid, .Active, now1, now1 + SESSION_DURATION, true,
          some sid⟩ : Session)]).map (fun t =>
            if t.id_hash == sid then
              (⟨sid, suid, .Superseded, scr, sex, false, spar⟩ : Session)
            else t)).find? (fun t => t.id_hash == hash raw1) =
        some ⟨hash raw1, suid, .Active, now1, now1 + SESSION_DURATION, true, some sid⟩ := by
      rw [lookup_map_upd _ sid ⟨sid, suid, .Superseded, scr, sex, false, spar⟩ rfl (hash raw1)]
      rw [find?_append_of_none hnone1]
      rw [List.find?_cons_of_pos _ (by simp)]
      simp [Ne.symm hid1]
    have hF2 : ((db.sessions ++
        [(⟨hash raw1, suid, .Active, now1, now1 + SESSION_DURATION, true,
          some sid⟩ : Session)]).map (fun t =>
            if t.id_hash == sid then
              (⟨sid, suid, .Superseded, scr, sex, false, spar⟩ : Session)
            else t)).find? (fun t => t.id_hash == sid) =
        some ⟨sid, suid, .Superseded, scr, sex, false, spar⟩ := by
      rw [lookup_map_upd _ sid ⟨sid, suid, .Superseded, scr, sex, false, spar⟩ rfl sid]
      rw [hsup1]
      simp
    have hAny2 : ((db.sessions ++
        [(⟨hash raw1, suid, .Active, now1, now1 + SESSION_DURATION, true,
          some sid⟩ : Session)]).map (fun t =>
            if t.id_hash == sid then
              (⟨sid, suid, .Superseded, scr, sex, false, spar⟩ : Session)
            else t)).any (fun t => t.id_hash == hash raw2) = false := by
      rw [any_map_key (upd_fn_preserves sid ⟨sid, suid, .Superseded, scr, sex, false, spar⟩ rfl)
        (hash raw2)]
      rw [List.any_append, hf2]
      simp [Ne.symm hne]
    have hnone2 : ((db.sessions ++
        [(⟨hash raw1, suid, .Active, now1, now1 + SESSION_DURATION, true,
          some sid⟩ : Session)]).map (fun t =>
            if t.id_hash == sid then
              (⟨sid, suid, .Superseded, scr, sex, false, spar⟩ : Session)
            else t)).find? (fun t => t.id_hash == hash raw2) = none := by
      rw [List.find?_eq_none]
      exact List.any_eq_false.mp hAny2
    have hExt : authenticated_session refOps
        { db with sessions := (db.sessions ++
          [(⟨hash raw1, suid, .Active, now1, now1 + SESSION_DURATION, true,
            some sid⟩ : Session)]).map (fun t =>
              if t.id_hash == sid then
                (⟨sid, suid, .Superseded, scr, sex, false, spar⟩ : Session)
              else t) } now2 (some (some (hash raw1))) =
        ({ db with sessions := (db.sessions ++
          [(⟨hash raw1, suid, .Active, now1, now1 + SESSION_DURATION, true,
            some sid⟩ : Session)]).map (fun t =>
              if t.id_hash == sid then
                (⟨sid, suid, .Superseded, scr, sex, false, spar⟩ : Session)
              else t) },
         .ok ⟨hash raw1, suid, .Active, now1, now1 + SESSION_DURATION, true, some sid⟩) := by
      unfold authenticated_session
      dsimp only [refOps_get_session_by_id_hash]
      unfold Ref.get_session_by_id_hash
      dsimp only
      rw [hF1]
      dsimp only
      rw [if_neg (by
        simp only [bne_self_eq_false, Bool.false_or, decide_eq_true_eq]
        exact not_lt.mpr hnow)]
    have hS2 : (((db.sessions ++
        [(⟨hash raw1, suid, .Active, now1, now1 + SESSION_DURATION, true,
          some sid⟩ : Session)]).map (fun t =>
            if t.id_hash == sid then
              (⟨sid, suid, .Superseded, scr, sex, false, spar⟩ : Session)
            else t)) ++
        [(⟨hash raw2, suid, .Active, now2, now2 + SESSION_DURATION, false,
          some (hash raw1)⟩ : Session)]).find? (fun t => t.id_hash == hash raw1) =
        some ⟨hash raw1, suid, .Active, now1, now1 + SESSION_DURATION, true, some sid⟩ :=
      find?_append_some hF1
    have hd := downgrade_session_ok
      { db with sessions := (db.sessions ++
        [(⟨hash raw1, suid, .Active, now1, now1 + SESSION_DURATION, true,
          some sid⟩ : Session)]).map (fun t =>
            if t.id_hash == sid then
              (⟨sid, suid, .Superseded, scr, sex, false, spar⟩ : Session)
            else t) }
      ⟨hash raw1, suid, .Active, now1, now1 + SESSION_DURATION, true, some sid⟩
      ⟨sid, suid, .Superseded, scr, sex, false, spar⟩
      ⟨hash raw1, suid, .Active, now1, now1 + SESSION_DURATION, true, some sid⟩
      sid raw2 hash now2 rfl hF2 hAny2 hS2
    dsimp only at hd
    have hF3 : ((((db.sessions ++
        [(⟨hash raw1, suid, .Active, now1, now1 + SESSION_DURATION, true,
          some sid⟩ : Session)]).map (fun t =>
            if t.id_hash == sid then
              (⟨sid, suid, .Superseded, scr, sex, false, spar⟩ : Session)
            else t)) ++
        [(⟨hash raw2, suid, .Active, now2, now2 + SESSION_DURATION, false,
          some (hash raw1)⟩ : Session)]).map (fun t =>
            if t.id_hash == hash raw1 then
              (⟨hash raw1, suid, .Superseded, now1, now1 + SESSION_DURATION, true,
                some sid⟩ : Session)
            else t)).find? (fun t => t.id_hash == hash raw2) =
        some ⟨hash raw2, suid, .Active, now2, now2 + SESSION_DURATION, false,
          some (hash raw1)⟩ := by
      rw [lookup_map_upd _ (hash raw1)
        ⟨hash raw1, suid, .Superseded, now1, now1 + SESSION_DURATION, true, some sid⟩
        rfl (hash raw2)]
      rw [find?_append_of_none hnone2]
      rw [List.find?_cons_of_pos _ (by simp)]
      simp [hne]
    have hF4 : ((((db.sessions ++
        [(⟨hash raw1, suid, .Active, now1, now1 + SESSION_DURATION, true,
          some sid⟩ : Session)]).map (fun t =>
            if t.id_hash == sid then
              (⟨sid, suid, .Superseded, scr, sex, false, spar⟩ : Session)
            else t)) ++
        [(⟨hash raw2, suid, .Active, now2, now2 + SESSION_DURATION, false,
          some (hash raw1)⟩ : Session)]).map (fun t =>
            if t.id_hash == hash raw1 then
              (⟨hash raw1, suid, .Superseded, now1, now1 + SESSION_DURATION, true,
                some sid⟩ : Session)
            else t)).find? (fun t => t.id_hash == hash raw1) =
        some ⟨hash raw1, suid, .Superseded, now1, now1 + SESSION_DURATION, true,
          some sid⟩ := by
      rw [lookup_map_upd _ (hash raw1)
        ⟨hash raw1, suid, .Superseded, now1, now1 + SESSION_DURATION, true, some sid⟩
        rfl (hash raw1)]
      rw [find?_append_some hF1]
      simp
    exact ⟨_, _, hu, hF1, hF2, hExt, hd, hF3, hF4⟩
  · intro db s raw hash now h
    unfold downgrade_session
    rw [h]

/-- The round trip at a concrete store: user 7 holds the admin tag and
owns active non-admin session 40; elevating with fresh hash 60 at time
10 and de-elevating with fresh hash 61 at time 20 behave as claimed. -/
theorem c3_witness :
    ∃ db1 db2,
      upgrade_session refOps dbRoundTrip ⟨40, 7, .Active, 0, 86400, false, none⟩ .Admin
          60 (fun n => n) 10 =
        ⟨db1,
         [.createSession ⟨60, 7, .Active, 10, 10 + SESSION_DURATION, true, some 40⟩,
          .updateSession 40 ⟨some .Superseded, none⟩],
         .ok 60⟩ ∧
      lookupSession db1 60 =
        some ⟨60, 7, .Active, 10, 10 + SESSION_DURATION, true, some 40⟩ ∧
      lookupSession db1 40 = some ⟨40, 7, .Superseded, 0, 86400, false, none⟩ ∧
      authenticated_session refOps db1 20 (some (some 60)) =
        (db1, .ok ⟨60, 7, .Active, 10, 10 + SESSION_DURATION, true, some 40⟩) ∧
      downgrade_session refOps db1
          ⟨60, 7, .Active, 10, 10 + SESSION_DURATION, true, some 40⟩ 61 (fun n => n) 20 =
        ⟨db2,
         [.createSession ⟨61, 7, .Active, 20, 20 + SESSION_DURATION, false, some 60⟩,
          .updateSession 60 ⟨some .Superseded, none⟩],
         .ok 61⟩ ∧
      lookupSession db2 61 =
        some ⟨61, 7, .Active, 20, 20 + SESSION_DURATION, false, some 60⟩ ∧
      lookupSession db2 60 =
        some ⟨60, 7, .Superseded, 10, 10 + SESSION_DURATION, true, some 40⟩ :=
  c3_elevate_deelevate_round_trip.1 dbRoundTrip ⟨40, 7, .Active, 0, 86400, false, none⟩
    60 61 (fun n => n) 10 20 rfl rfl (by decide) (by decide) (by decide) (by decide)
    (by decide) (by decide)

end Iam
